import Mathlib

/-!
Verification of the reconcile-tfstate reconciliation engine.

The definitions below are a shallow embedding of the Go sources of the
repository (app.go, aws.go, output.go, state.go, version.go and the state
reader).  External collaborators (the AWS SDK, `encoding/json`, the file
system, the Command Runner) are modelled as oracles/environments; everything
the repository itself computes is translated directly from the source.
-/

namespace RTF

/-! ## String helpers modelling the Go standard library

Lean's built-in `String.splitOn`/`String.toLower` are iterator based and do
not reduce inside the kernel, so the Go string functions used by the sources
are modelled over `String.data` with structural recursion.  Semantics match
the Go functions on the inputs the program uses.
-/

/-- Model of Go `strings.Split(s, sep)` for a one-character separator:
splits at every occurrence, keeps empty fields, `""` yields `[""]`. -/
def goSplitCharAux (sep : Char) : List Char → List Char → List (List Char)
  | [], acc => [acc.reverse]
  | c :: rest, acc =>
    if c = sep then acc.reverse :: goSplitCharAux sep rest []
    else goSplitCharAux sep rest (c :: acc)

/-- `strings.Split` on a single-character separator, over `String`. -/
def goSplitChar (sep : Char) (s : String) : List String :=
  (goSplitCharAux sep s.data []).map String.mk

/-- Model of Go `strings.ToLower` restricted to ASCII (the inputs the
program lowercases are ASCII file names and resource IDs). -/
def goToLower (s : String) : String :=
  String.mk (s.data.map Char.toLower)

/-- Model of Go `strings.EqualFold` restricted to ASCII simple case folding
(AWS identifiers and Terraform state IDs are ASCII). -/
def stringsEqualFold (a b : String) : Bool :=
  goToLower a == goToLower b

/-- Model of Go `strings.TrimSuffix`. -/
def goTrimSuffix (s suffix : String) : String :=
  if suffix.data.isSuffixOf s.data then
    String.mk (s.data.take (s.data.length - suffix.data.length))
  else s

/-- Model of Go `filepath.Ext`: the suffix beginning at the final dot,
empty when there is no dot.  (The program only applies it to plain base
file names, so the path-separator case is not needed.) -/
def goExt (s : String) : String :=
  let revTail := s.data.reverse.takeWhile (fun c => c ≠ '.')
  if revTail.length = s.data.length then ""
  else String.mk ('.' :: revTail.reverse)

/-- Model of Go `filepath.Base` for the slash-free or simple-path names the
program passes it: the final path component, `"."` for the empty string. -/
def goBase (s : String) : String :=
  if s = "" then "."
  else ((goSplitChar '/' s).getLast?).getD s

/-- Model of Go `filepath.Join` for the two-component joins the program
performs on clean relative paths. -/
def goJoin (a b : String) : String := a ++ "/" ++ b

/-! ## Data model (types.go) -/

/-- A single attribute value as produced by `json.Unmarshal` into
`map[string]interface{}`: a JSON string, JSON `null` (a nil interface in
Go), or any other JSON value carried with its Go `%v` rendering. -/
inductive AttrVal
  | str (s : String)
  | null
  | other (repr : String)
deriving DecidableEq, Repr

/-- Attribute map of one instance (Go `map[string]interface{}`; keys are
unique, lookup is by key). -/
abbrev Attrs := List (String × AttrVal)

/-- The `attributes` of an instance after the `json.Unmarshal` step in
`processResourceInstance`: either the decoded map (this also covers the
`AttributesFlat` fallback, whose values are all strings, and the nil map
when both raw forms are empty) or an unmarshal failure with its message. -/
inductive AttrsState
  | parsed (m : Attrs)
  | parseError (msg : String)
deriving DecidableEq, Repr

/-- `index_key` of an instance: a JSON string, a JSON number (Go `float64`,
rendered through `int(v)`, modelled as the integer directly), or any other
value with its `%v` rendering. -/
inductive IndexKey
  | str (v : String)
  | num (v : Int)
  | other (repr : String)
deriving DecidableEq, Repr

/-- InstanceObjectStateV4 (types.go), restricted to the fields
`processResourceInstance` reads: `IndexKey` and the attribute document. -/
structure InstanceObjectStateV4 where
  IndexKey : Option IndexKey := none
  attrs : AttrsState := .parsed []
deriving DecidableEq, Repr

/-- ResourceStateV4 (types.go), the fields the engine reads.  The Go field
`Type` is written `Type'` because `Type` is reserved in Lean. -/
structure ResourceStateV4 where
  Module : String := ""
  Mode : String := ""
  Type' : String := ""
  Name : String := ""
  Instances : List InstanceObjectStateV4 := []
deriving DecidableEq, Repr

/-- ResourceStatus (types.go).  `Error` is `Option String` (the Go `error`
carried as its message). -/
structure ResourceStatus where
  TerraformAddress : String := ""
  StateID : String := ""
  LiveID : String := ""
  ExistsInAWS : Bool := false
  Error : Option String := none
  Category : String := ""
  Message : String := ""
  Command : String := ""
  Kind : String := ""
  TFID : String := ""
  AWSID : String := ""
  Stdout : String := ""
  Stderr : String := ""
deriving DecidableEq, Repr

/-- categorizedResults (types.go). -/
structure categorizedResults where
  InfoResults : List ResourceStatus := []
  OkResults : List ResourceStatus := []
  WarningResults : List ResourceStatus := []
  ErrorResults : List ResourceStatus := []
  PotentialImportResults : List ResourceStatus := []
  DangerousResults : List ResourceStatus := []
  RegionMismatchResults : List ResourceStatus := []
  RunCommands : List String := []
deriving DecidableEq, Repr

/-! ## aws.go -/

/-- extractRegionFromARN (aws.go): split on `:`, return `parts[3]` when at
least four parts exist, `""` otherwise. -/
def extractRegionFromARN (arn : String) : String :=
  let parts := goSplitChar ':' arn
  if 4 ≤ parts.length then parts.getD 3 "" else ""

/-! ## The Inventory Provider boundary

Each `clients.verifyXxx` call of verify.go is a remote AWS lookup; the
engine consumes it through the three-valued contract
`(liveID, exists, error)`.  The collaborator is modelled as an oracle from
the call (function name plus arguments) to an outcome, and
`processResourceInstance` additionally returns the list of calls it issued
so that call counts can be stated. -/

/-- One Inventory Provider invocation: verifier name and its arguments. -/
structure VerifyCall where
  fn : String
  args : List String
deriving DecidableEq, Repr

/-- The three-valued verifier outcome `(liveID, exists, error)`. -/
structure VerifyOutcome where
  liveID : String := ""
  resourceExists : Bool := false
  err : Option String := none
deriving DecidableEq, Repr

/-- The Inventory Provider collaborator. -/
abbrev Oracle := VerifyCall → VerifyOutcome

/-! ## Attribute access helpers (the Go idioms used in app.go) -/

/-- Go map lookup `attributes[k]` (`none` = key absent, i.e. nil value). -/
def lookupAttr (m : Attrs) (k : String) : Option AttrVal :=
  (m.find? (fun p => p.1 == k)).map (·.2)

/-- Go `v, ok := attributes[k].(string)`: `some s` iff present and a
string. -/
def attrStrOpt (m : Attrs) (k : String) : Option String :=
  match lookupAttr m k with
  | some (.str s) => some s
  | _ => none

/-- The combined Go idiom `if v, ok := attributes[k].(string); ok && v != ""`
collapses to `attrStr m k ≠ ""`: missing or non-string gives `""`. -/
def attrStr (m : Attrs) (k : String) : String :=
  (attrStrOpt m k).getD ""

/-- Go `val, ok := attributes[k]; ok && val != nil` — the value when present
and not JSON null. -/
def presentNonNull (m : Attrs) (k : String) : Option AttrVal :=
  match lookupAttr m k with
  | some .null => none
  | some v => some v
  | none => none

/-- Go `fmt.Sprintf("%v", val)` on an attribute value. -/
def attrGoString : AttrVal → String
  | .str s => s
  | .null => "<nil>"
  | .other r => r

/-- `%v` of `attributes[k]` (missing key renders the nil interface). -/
def attrGoStringAt (m : Attrs) (k : String) : String :=
  match lookupAttr m k with
  | some v => attrGoString v
  | none => "<nil>"

/-! ## processResourceInstance (app.go) -/

/-- The Terraform address built at the top of `processResourceInstance`:
`module.type.name` plus the optional index suffix (string index quoted,
numeric index bracketed, generic fallback otherwise). -/
def tfAddressOf (resource : ResourceStateV4) (inst : InstanceObjectStateV4) : String :=
  let a := resource.Type' ++ "." ++ resource.Name
  let a := if resource.Module ≠ "" then resource.Module ++ "." ++ a else a
  match inst.IndexKey with
  | none => a
  | some (.str v) => a ++ "[\"" ++ v ++ "\"]"
  | some (.num v) => a ++ "[" ++ toString v ++ "]"
  | some (.other r) => a ++ "[" ++ r ++ "]"

/-- The `arnInState` extraction chain of app.go: an ordered, fixed
precedence list of attribute names; the first present string-typed value
wins (even when it is empty, which stops the chain, exactly as the Go
`else if` ladder does). -/
def arnInStateOf (attributes : Attrs) : String :=
  (attrStrOpt attributes "arn" <|>
   attrStrOpt attributes "load_balancer_arn" <|>
   attrStrOpt attributes "target_group_arn" <|>
   attrStrOpt attributes "rule_arn" <|>
   attrStrOpt attributes "certificate_arn" <|>
   attrStrOpt attributes "instance_profile_arn" <|>
   attrStrOpt attributes "role_arn" <|>
   attrStrOpt attributes "function_arn" <|>
   attrStrOpt attributes "distribution_arn" <|>
   attrStrOpt attributes "autoscaling_group_arn" <|>
   attrStrOpt attributes "policy_arn" <|>
   attrStrOpt attributes "alarm_arn" <|>
   attrStrOpt attributes "bucket_arn" <|>
   attrStrOpt attributes "service_arn" <|>
   attrStrOpt attributes "task_definition_arn").getD ""

/-- The common classification tail of `processResourceInstance`
(app.go lines 730-758): given the verification outcome
`(liveID, exists, err)` assign ERROR / OK / POTENTIAL_IMPORT / DANGEROUS
with the corresponding message and remediation command. -/
def finishClassification (tfAddress stateID : String) (base : ResourceStatus)
    (liveID : String) (existsInAWS : Bool) (err : Option String) : ResourceStatus :=
  let status := { base with LiveID := liveID, ExistsInAWS := existsInAWS, Error := err }
  match err with
  | some e =>
      { status with
        Category := "ERROR",
        Message := "Failed to verify " ++ tfAddress ++ ": " ++ e,
        TFID := stateID, AWSID := liveID }
  | none =>
    if existsInAWS then
      if stringsEqualFold stateID liveID || stateID == "" then
        { status with
          Category := "OK",
          Message := tfAddress ++ " (ID: " ++ liveID ++ ") exists in state and AWS.",
          TFID := stateID, AWSID := liveID }
      else
        { status with
          Category := "POTENTIAL_IMPORT",
          Message := tfAddress ++ " exists in AWS with ID '" ++ liveID ++ "'. State ID: '" ++ stateID ++ "'.",
          Command := "terraform import " ++ tfAddress ++ " " ++ liveID,
          TFID := stateID, AWSID := liveID }
    else
      { status with
        Category := "DANGEROUS",
        Message := tfAddress ++ " (ID: " ++ stateID ++ ") is in state but NOT FOUND in AWS.",
        Command := "terraform state rm " ++ tfAddress,
        TFID := stateID, AWSID := liveID }

/-- The resource-kind switch of `processResourceInstance` (app.go lines
275-728), extracted as its own definition so statements about the
fast path need not unfold it.  `status` is the partially filled
`ResourceStatus` in scope at the switch. -/
def dispatchByKind (oracle : Oracle) (resource : ResourceStateV4)
    (attributes : Attrs) (tfAddress stateID : String) (status : ResourceStatus)
    (currentFlagRegion : String) : ResourceStatus × List VerifyCall :=
  let invoke : String → List String → ResourceStatus × List VerifyCall := fun fn args =>
    let c : VerifyCall := ⟨fn, args⟩
    let r := oracle c
    (finishClassification tfAddress stateID status r.liveID r.resourceExists r.err, [c])
  let missing : String → ResourceStatus × List VerifyCall := fun msg =>
    (finishClassification tfAddress stateID status "" false (some msg), [])
  match resource.Type' with
      | "aws_s3_bucket" =>
        if attrStr attributes "bucket" ≠ "" then
          invoke "verifyS3Bucket" [attrStr attributes "bucket"]
        else missing "could not find 'bucket' attribute for aws_s3_bucket"
      | "aws_cloudwatch_log_group" =>
        if attrStr attributes "name" ≠ "" then
          invoke "verifyCloudWatchLogGroup" [attrStr attributes "name"]
        else missing "could not find 'name' attribute for aws_cloudwatch_log_group"
      | "aws_key_pair" =>
        if attrStr attributes "key_name" ≠ "" then
          invoke "verifyKeyPair" [attrStr attributes "key_name"]
        else missing "could not find 'key_name' attribute for aws_key_pair"
      | "aws_security_group" =>
        let sgID := attrStr attributes "id"
        let sgName := attrStr attributes "name"
        if sgID ≠ "" ∨ sgName ≠ "" then invoke "verifySecurityGroup" [sgID, sgName]
        else missing "could not find 'id' or 'name' attribute for aws_security_group"
      | "aws_route53_zone" =>
        let zoneID := attrStr attributes "zone_id"
        let zoneName := attrStr attributes "name"
        if zoneID ≠ "" ∨ zoneName ≠ "" then invoke "verifyRoute53Zone" [zoneID, zoneName]
        else missing "could not find 'id' or 'name' attribute for aws_route53_zone"
      | "aws_lb" =>
        let lbARN := attrStr attributes "arn"
        let lbName := attrStr attributes "name"
        if lbARN ≠ "" ∨ lbName ≠ "" then
          invoke "verifyLoadBalancer" [lbARN, lbName, currentFlagRegion]
        else missing "could not find 'arn' or 'name' attribute for aws_lb"
      | "aws_lb_listener" =>
        let listenerARN := attrStr attributes "arn"
        let lbARN := attrStr attributes "load_balancer_arn"
        if listenerARN ≠ "" ∨ lbARN ≠ "" then
          invoke "verifyListener" [listenerARN, lbARN, currentFlagRegion]
        else missing "could not find 'arn' or 'load_balancer_arn' attribute for aws_lb_listener"
      | "aws_lb_target_group" =>
        let tgARN := attrStr attributes "arn"
        let tgName := attrStr attributes "name"
        if tgARN ≠ "" ∨ tgName ≠ "" then
          invoke "verifyTargetGroup" [tgARN, tgName, currentFlagRegion]
        else missing "could not find 'arn' or 'name' attribute for aws_lb_target_group"
      | "aws_lb_listener_rule" =>
        let ruleARN := attrStr attributes "arn"
        let listenerARN := attrStr attributes "listener_arn"
        if ruleARN ≠ "" ∨ listenerARN ≠ "" then
          invoke "verifyListenerRule" [ruleARN, listenerARN, currentFlagRegion]
        else missing "could not find 'arn' or 'listener_arn' attribute for aws_lb_listener_rule"
      | "aws_caller_identity" | "aws_iam_policy_document" | "archive_file"
      | "local_file" | "random_password" =>
        ({ status with
           Category := "INFO",
           Message := "Data/Local resource '" ++ tfAddress ++ "'. No external verification needed.",
           TFID := stateID, AWSID := "" }, [])
      | "aws_security_group_rule" =>
        let sgRuleAWSID := attrStr attributes "security_group_rule_id"
        if sgRuleAWSID ≠ "" then invoke "verifySecurityGroupRule" [sgRuleAWSID]
        else
          ({ status with
             Category := "WARNING",
             Message := "Resource type '" ++ resource.Type' ++ "' (ID: " ++ stateID ++
               ") verification is complex and 'security_group_rule_id' not found in state attributes. Manual verification recommended.",
             TFID := stateID, AWSID := "" }, [])
      | "aws_acm_certificate" =>
        if attrStr attributes "arn" ≠ "" then
          invoke "verifyACMCertificate" [attrStr attributes "arn"]
        else missing "could not find 'arn' attribute for aws_acm_certificate"
      | "aws_acm_certificate_validation" =>
        if attrStr attributes "certificate_arn" ≠ "" then
          invoke "verifyACMCertificateValidation" [attrStr attributes "certificate_arn"]
        else missing "could not find 'certificate_arn' attribute for aws_acm_certificate_validation"
      | "aws_route53_record" =>
        let zoneID := attrStr attributes "zone_id"
        let recordName := attrStr attributes "name"
        let recordType := attrStr attributes "type"
        if zoneID ≠ "" ∧ recordName ≠ "" ∧ recordType ≠ "" then
          invoke "verifyRoute53Record" [zoneID, recordName, recordType]
        else missing "could not find 'zone_id', 'name', or 'type' attributes for aws_route53_record"
      | "aws_ami" =>
        if attrStr attributes "id" ≠ "" then invoke "verifyAMI" [attrStr attributes "id"]
        else missing "could not find 'id' attribute for aws_ami"
      | "aws_ecs_cluster" =>
        match (presentNonNull attributes "name").orElse
            (fun _ => presentNonNull attributes "cluster_name") with
        | none =>
            ({ TerraformAddress := tfAddress,
               Error := some ("neither 'name' nor 'cluster_name' attribute found or are null for aws_ecs_cluster. Raw values: name=" ++
                 attrGoStringAt attributes "name" ++ ", cluster_name=" ++
                 attrGoStringAt attributes "cluster_name"),
               Category := "ERROR",
               Message := "Failed to retrieve valid name/cluster_name attribute for " ++
                 tfAddress ++ ". Inspect state file.",
               Kind := resource.Mode }, [])
        | some val =>
            let clusterName := attrGoString val
            if clusterName = "" then
              ({ TerraformAddress := tfAddress,
                 Error := some ("attribute for aws_ecs_cluster converted to an empty string. Raw value: " ++
                   attrGoString val),
                 Category := "ERROR",
                 Message := "Failed to retrieve valid name/cluster_name attribute for " ++
                   tfAddress ++ ". Inspect state file.",
                 Kind := resource.Mode }, [])
            else invoke "verifyECSCluster" [clusterName]
      | "aws_region" =>
        match presentNonNull attributes "name" with
        | none =>
            ({ status with
               Category := "ERROR",
               Message := "Data source '" ++ tfAddress ++
                 "' has no valid 'name' attribute for region. Raw value: " ++
                 attrGoStringAt attributes "name" }, [])
        | some val =>
          let regionInState := attrGoString val
          if regionInState = "" then
            ({ status with
               Category := "ERROR",
               Message := "Data source '" ++ tfAddress ++
                 "' 'name' attribute converted to an empty string. Raw value: " ++
                 attrGoString val }, [])
          else if regionInState = currentFlagRegion then
            ({ status with
               Category := "OK",
               Message := tfAddress ++ " (ID: " ++ regionInState ++
                 ") resolves to current region and is in state.",
               LiveID := regionInState, ExistsInAWS := true,
               TFID := regionInState, AWSID := regionInState }, [])
          else
            ({ status with
               Category := "REGION_MISMATCH",
               Message := tfAddress ++ " (state file claims region '" ++ regionInState ++
                 "') does not match current region '" ++ currentFlagRegion ++
                 "'. Suggest `terraform state rm " ++ tfAddress ++
                 "` if resource moved or is irrelevant.",
               Command := "terraform state rm " ++ tfAddress,
               TFID := regionInState, AWSID := currentFlagRegion }, [])
      | "aws_ssm_parameter" =>
        if attrStr attributes "name" ≠ "" then
          invoke "verifySSMParameter" [attrStr attributes "name"]
        else missing "could not find 'name' attribute for aws_ssm_parameter"
      | "aws_secretsmanager_secret" =>
        if attrStr attributes "id" ≠ "" then
          invoke "verifySecretsManagerSecret" [attrStr attributes "id"]
        else missing "could not find 'id' attribute for aws_secretsmanager_secret"
      | "aws_secretsmanager_secret_version" =>
        let secretID := attrStr attributes "secret_id"
        let versionID := attrStr attributes "version_id"
        if secretID ≠ "" ∧ versionID ≠ "" then
          invoke "verifySecretsManagerSecretVersion" [secretID, versionID]
        else missing "could not find 'secret_id' or 'version_id' attribute for aws_secretsmanager_secret_version"
      | "aws_eip" =>
        if attrStr attributes "allocation_id" ≠ "" then
          invoke "verifyEIP" [attrStr attributes "allocation_id"]
        else missing "could not find 'allocation_id' attribute for aws_eip"
      | "aws_internet_gateway" =>
        if attrStr attributes "id" ≠ "" then
          invoke "verifyInternetGateway" [attrStr attributes "id"]
        else missing "could not find 'id' attribute for aws_internet_gateway"
      | "aws_nat_gateway" =>
        if attrStr attributes "id" ≠ "" then
          invoke "verifyNatGateway" [attrStr attributes "id"]
        else missing "could not find 'id' attribute for aws_nat_gateway"
      | "aws_route" =>
        let routeTableID := attrStr attributes "route_table_id"
        let destinationCIDR := attrStr attributes "destination_cidr_block"
        if routeTableID ≠ "" ∧ (destinationCIDR ≠ "" ∨
            (presentNonNull attributes "destination_ipv6_cidr_block").isSome) then
          invoke "verifyRoute" [routeTableID, destinationCIDR]
        else missing "could not find 'route_table_id' or destination CIDR attributes for aws_route"
      | "aws_route_table" =>
        if attrStr attributes "id" ≠ "" then
          invoke "verifyRouteTable" [attrStr attributes "id"]
        else missing "could not find 'id' attribute for aws_route_table"
      | "aws_route_table_association" =>
        if attrStr attributes "id" ≠ "" then
          invoke "verifyRouteTableAssociation" [attrStr attributes "id"]
        else missing "could not find 'id' attribute for aws_route_table_association"
      | "aws_subnet" =>
        if attrStr attributes "id" ≠ "" then
          invoke "verifySubnet" [attrStr attributes "id"]
        else missing "could not find 'id' attribute for aws_subnet"
      | "aws_vpc" =>
        if attrStr attributes "id" ≠ "" then
          invoke "verifyVPC" [attrStr attributes "id"]
        else missing "could not find 'id' attribute for aws_vpc"
      | "aws_instance" =>
        if attrStr attributes "id" ≠ "" then
          invoke "verifyInstance" [attrStr attributes "id"]
        else missing "could not find 'id' attribute for aws_instance"
      | "aws_launch_template" =>
        let templateID := attrStr attributes "id"
        let templateName := attrStr attributes "name"
        if templateID ≠ "" ∨ templateName ≠ "" then
          invoke "verifyLaunchTemplate" [templateID, templateName]
        else missing "could not find 'id' or 'name' attribute for aws_launch_template"
      | "aws_autoscaling_group" =>
        if attrStr attributes "name" ≠ "" then
          invoke "verifyAutoscalingGroup" [attrStr attributes "name"]
        else missing "could not find 'name' attribute for aws_autoscaling_group"
      | "aws_autoscaling_policy" =>
        let policyARN := attrStr attributes "arn"
        let policyName := attrStr attributes "name"
        let asgName := attrStr attributes "autoscaling_group_name"
        if policyARN ≠ "" ∨ (policyName ≠ "" ∧ asgName ≠ "") then
          invoke "verifyAutoscalingPolicy" [policyARN, policyName, asgName]
        else missing "could not find 'arn' or ('name' and 'autoscaling_group_name') attributes for aws_autoscaling_policy"
      | "aws_cloudwatch_metric_alarm" =>
        if attrStr attributes "alarm_name" ≠ "" then
          invoke "verifyCloudWatchMetricAlarm" [attrStr attributes "alarm_name"]
        else missing "could not find 'alarm_name' attribute for aws_cloudwatch_metric_alarm"
      | "aws_iam_instance_profile" =>
        if attrStr attributes "name" ≠ "" then
          invoke "verifyIAMInstanceProfile" [attrStr attributes "name"]
        else missing "could not find 'name' attribute for aws_iam_instance_profile"
      | "aws_iam_role" =>
        if attrStr attributes "name" ≠ "" then
          invoke "verifyIAMRole" [attrStr attributes "name"]
        else missing "could not find 'name' attribute for aws_iam_role"
      | "aws_iam_role_policy" =>
        let roleName := attrStr attributes "role"
        let policyName := attrStr attributes "name"
        if roleName ≠ "" ∧ policyName ≠ "" then
          invoke "verifyIAMRolePolicy" [roleName, policyName]
        else missing "could not find 'role' or 'name' attributes for aws_iam_role_policy"
      | "aws_lambda_function" =>
        if attrStr attributes "function_name" ≠ "" then
          invoke "verifyLambdaFunction" [attrStr attributes "function_name"]
        else missing "could not find 'function_name' attribute for aws_lambda_function"
      | "aws_lambda_permission" =>
        let functionName := attrStr attributes "function_name"
        let statementID := attrStr attributes "statement_id"
        if functionName ≠ "" ∧ statementID ≠ "" then
          invoke "verifyLambdaPermission" [functionName, statementID]
        else missing "could not find 'function_name' or 'statement_id' attributes for aws_lambda_permission"
      | "aws_cloudfront_distribution" =>
        if attrStr attributes "id" ≠ "" then
          invoke "verifyCloudFrontDistribution" [attrStr attributes "id"]
        else missing "could not find 'id' attribute for aws_cloudfront_distribution"
      | "aws_cloudfront_origin_access_identity" =>
        if attrStr attributes "id" ≠ "" then
          invoke "verifyCloudFrontOriginAccessIdentity" [attrStr attributes "id"]
        else missing "could not find 'id' attribute for aws_cloudfront_origin_access_identity"
      | "aws_s3_bucket_policy" =>
        if attrStr attributes "bucket" ≠ "" then
          invoke "verifyS3BucketPolicy" [attrStr attributes "bucket"]
        else missing "could not find 'bucket' attribute for aws_s3_bucket_policy"
      | "aws_s3_bucket_acl" =>
        if attrStr attributes "bucket" ≠ "" then
          invoke "verifyS3BucketACL" [attrStr attributes "bucket"]
        else missing "could not find 'bucket' attribute for aws_s3_bucket_acl"
      | "aws_s3_bucket_ownership_controls" =>
        if attrStr attributes "bucket" ≠ "" then
          invoke "verifyS3BucketOwnershipControls" [attrStr attributes "bucket"]
        else missing "could not find 'bucket' attribute for aws_s3_bucket_ownership_controls"
      | "aws_s3_bucket_public_access_block" =>
        if attrStr attributes "bucket" ≠ "" then
          invoke "verifyS3BucketPublicAccessBlock" [attrStr attributes "bucket"]
        else missing "could not find 'bucket' attribute for aws_s3_bucket_public_access_block"
      | "aws_s3_bucket_website_configuration" =>
        if attrStr attributes "bucket" ≠ "" then
          invoke "verifyS3BucketWebsiteConfiguration" [attrStr attributes "bucket"]
        else missing "could not find 'bucket' attribute for aws_s3_bucket_website_configuration"
      | "aws_s3_bucket_cors_configuration" =>
        if attrStr attributes "bucket" ≠ "" then
          invoke "verifyS3BucketCORSConfiguration" [attrStr attributes "bucket"]
        else missing "could not find 'bucket' attribute for aws_s3_bucket_cors_configuration"
      | "aws_s3_bucket_notification" =>
        if attrStr attributes "bucket" ≠ "" then
          invoke "verifyS3BucketNotification" [attrStr attributes "bucket"]
        else missing "could not find 'bucket' attribute for aws_s3_bucket_notification"
      | "aws_s3_object" =>
        let bucketName := attrStr attributes "bucket"
        let key := attrStr attributes "key"
        if bucketName ≠ "" ∧ key ≠ "" then invoke "verifyS3Object" [bucketName, key]
        else missing "could not find 'bucket' or 'key' attributes for aws_s3_object"
      | "aws_ecs_service" =>
        match presentNonNull attributes "cluster" with
        | none =>
            ({ TerraformAddress := tfAddress,
               Error := some ("attribute 'cluster' for aws_ecs_service is missing or null. Raw value: " ++
                 attrGoStringAt attributes "cluster"),
               Category := "ERROR",
               Message := "Failed to retrieve valid 'cluster' attribute for " ++ tfAddress ++
                 ". Inspect state file.",
               Kind := resource.Mode }, [])
        | some valCluster =>
          let clusterName := attrGoString valCluster
          if clusterName = "" then
            ({ TerraformAddress := tfAddress,
               Error := some ("attribute 'cluster' for aws_ecs_service converted to an empty string. Raw value: " ++
                 attrGoString valCluster),
               Category := "ERROR",
               Message := "Failed to retrieve valid 'cluster' attribute for " ++ tfAddress ++
                 ". Inspect state file.",
               Kind := resource.Mode }, [])
          else
            match presentNonNull attributes "name" with
            | none =>
                ({ TerraformAddress := tfAddress,
                   Error := some ("attribute 'name' for aws_ecs_service is missing or null. Raw value: " ++
                     attrGoStringAt attributes "name"),
                   Category := "ERROR",
                   Message := "Failed to retrieve valid 'name' attribute for " ++ tfAddress ++
                     ". Inspect state file.",
                   Kind := resource.Mode }, [])
            | some valService =>
              let serviceName := attrGoString valService
              if serviceName = "" then
                ({ TerraformAddress := tfAddress,
                   Error := some ("attribute 'name' for aws_ecs_service converted to an empty string. Raw value: " ++
                     attrGoString valService),
                   Category := "ERROR",
                   Message := "Failed to retrieve valid 'name' attribute for " ++ tfAddress ++
                     ". Inspect state file.",
                   Kind := resource.Mode }, [])
              else invoke "verifyECSService" [clusterName, serviceName]
      | "aws_ecs_task_definition" =>
        match presentNonNull attributes "arn" with
        | none =>
            ({ TerraformAddress := tfAddress,
               Error := some ("attribute 'arn' for aws_ecs_task_definition is missing or null. Raw value: " ++
                 attrGoStringAt attributes "arn"),
               Category := "ERROR",
               Message := "Failed to retrieve valid 'arn' attribute for " ++ tfAddress ++
                 ". Inspect state file.",
               Kind := resource.Mode }, [])
        | some val =>
          let taskDefinitionARN := attrGoString val
          if taskDefinitionARN = "" then
            ({ TerraformAddress := tfAddress,
               Error := some ("attribute 'arn' for aws_ecs_task_definition converted to an empty string. Raw value: " ++
                 attrGoString val),
               Category := "ERROR",
               Message := "Failed to retrieve valid 'arn' attribute for " ++ tfAddress ++
                 ". Inspect state file.",
               Kind := resource.Mode }, [])
          else invoke "verifyECSTaskDefinition" [taskDefinitionARN]
      | "aws_lb_listener_certificate" =>
        let listenerARN := attrStr attributes "listener_arn"
        let certificateARN := attrStr attributes "certificate_arn"
        if listenerARN ≠ "" ∧ certificateARN ≠ "" then
          invoke "verifyLBListenerCertificate" [listenerARN, certificateARN]
        else missing "could not find 'listener_arn' or 'certificate_arn' attributes for aws_lb_listener_certificate"
      | _ =>
        ({ status with
           Category := "WARNING",
           Message := "Resource type '" ++ resource.Type' ++
             "' not supported by this checker. Manual verification needed.",
           TFID := stateID, AWSID := "" }, [])

/-- processResourceInstance (app.go lines 178-761): classify one instance.
Address construction, attribute unmarshalling, the centralized
REGION_MISMATCH pre-check, then the per-kind switch (`dispatchByKind`).
Returns the `ResourceStatus` together with the list of Inventory Provider
calls made (so that call counts are part of the model; the Go function
performs the calls in place).  The `regionMismatchCount` atomic counter of
the source, which feeds no output used by the spec claims, is not
modelled. -/
def processResourceInstance (oracle : Oracle) (resource : ResourceStateV4)
    (inst : InstanceObjectStateV4) (currentFlagRegion : String) :
    ResourceStatus × List VerifyCall :=
  let tfAddress := tfAddressOf resource inst
  match inst.attrs with
  | .parseError msg =>
      ({ TerraformAddress := tfAddress,
         Error := some ("failed to unmarshal resource attributes for " ++ tfAddress ++ ": " ++ msg),
         Category := "ERROR",
         Message := "Failed to unmarshal attributes for " ++ tfAddress ++ ": " ++ msg,
         Kind := resource.Mode }, [])
  | .parsed attributes =>
    let stateID := attrStr attributes "id"
    let status : ResourceStatus :=
      { TerraformAddress := tfAddress, StateID := stateID, Kind := resource.Mode }
    let arnInState := arnInStateOf attributes
    let stateRegionFromARN := extractRegionFromARN arnInState
    if arnInState ≠ "" ∧ stateRegionFromARN ≠ "" ∧ stateRegionFromARN ≠ currentFlagRegion then
      ({ status with
          Category := "REGION_MISMATCH",
          Message := tfAddress ++ " (state file claims in '" ++ stateRegionFromARN ++
            "') not found in '" ++ currentFlagRegion ++ "'. Suggest `terraform state rm " ++
            tfAddress ++ "` if resource moved.",
          Command := "terraform state rm " ++ tfAddress,
          TFID := stateRegionFromARN,
          AWSID := currentFlagRegion }, [])
    else
      dispatchByKind oracle resource attributes tfAddress stateID status currentFlagRegion

/-- The data/local resource kinds that classify as INFO without any check
(the fused case arm of the switch). -/
def dataLocalKinds : List String :=
  ["aws_caller_identity", "aws_iam_policy_document", "archive_file",
   "local_file", "random_password"]

/-- All resource kinds with an explicit arm in the switch of
`processResourceInstance`; every other kind hits the `default` WARNING
arm. -/
def supportedKinds : List String :=
  ["aws_s3_bucket", "aws_cloudwatch_log_group", "aws_key_pair",
   "aws_security_group", "aws_route53_zone", "aws_lb", "aws_lb_listener",
   "aws_lb_target_group", "aws_lb_listener_rule",
   "aws_caller_identity", "aws_iam_policy_document", "archive_file",
   "local_file", "random_password",
   "aws_security_group_rule", "aws_acm_certificate",
   "aws_acm_certificate_validation", "aws_route53_record", "aws_ami",
   "aws_ecs_cluster", "aws_region", "aws_ssm_parameter",
   "aws_secretsmanager_secret", "aws_secretsmanager_secret_version",
   "aws_eip", "aws_internet_gateway", "aws_nat_gateway", "aws_route",
   "aws_route_table", "aws_route_table_association", "aws_subnet",
   "aws_vpc", "aws_instance", "aws_launch_template",
   "aws_autoscaling_group", "aws_autoscaling_policy",
   "aws_cloudwatch_metric_alarm", "aws_iam_instance_profile",
   "aws_iam_role", "aws_iam_role_policy", "aws_lambda_function",
   "aws_lambda_permission", "aws_cloudfront_distribution",
   "aws_cloudfront_origin_access_identity", "aws_s3_bucket_policy",
   "aws_s3_bucket_acl", "aws_s3_bucket_ownership_controls",
   "aws_s3_bucket_public_access_block",
   "aws_s3_bucket_website_configuration",
   "aws_s3_bucket_cors_configuration", "aws_s3_bucket_notification",
   "aws_s3_object", "aws_ecs_service", "aws_ecs_task_definition",
   "aws_lb_listener_certificate"]

/-! ## Snapshot decoder (version.go and the state reader) -/

/-- The whitespace bytes skipped by `looksLikeVersion0` (also the JSON
whitespace set). -/
def isStateWhitespace (c : Char) : Bool :=
  c = ' ' ∨ c = '\t' ∨ c = '\n' ∨ c = '\r'

/-- The opening-brace byte (written via its code point to keep braces out
of the source text). -/
def leftCurly : Char := Char.ofNat 123

/-- looksLikeVersion0 (version.go): scan the bytes; skip whitespace; stop
with `false` at an opening brace or bracket, with `true` at any other
non-whitespace byte; empty / all-whitespace input is not version 0. -/
def looksLikeVersion0Chars : List Char → Bool
  | [] => false
  | b :: rest =>
    if isStateWhitespace b then looksLikeVersion0Chars rest
    else if b = leftCurly ∨ b = '[' then false
    else true

/-- looksLikeVersion0 on a byte stream modelled as a `String`. -/
def looksLikeVersion0 (src : String) : Bool :=
  looksLikeVersion0Chars src.data

/-- OutputStateV4 (types.go); raw JSON payloads carried as strings. -/
structure OutputStateV4 where
  ValueRaw : String := ""
  ValueTypeRaw : String := ""
  Sensitive : Bool := false
deriving DecidableEq, Repr

/-- CheckResultsV4 (types.go), restricted to its scalar fields (the
engine never reads the nested objects). -/
structure CheckResultsV4 where
  ObjectKind : String := ""
  ConfigAddr : String := ""
  Status : String := ""
deriving DecidableEq, Repr

/-- TFStateFile (types.go): the canonical in-memory model. -/
structure TFStateFile where
  Version : Nat := 0
  TerraformVersion : String := ""
  Serial : Nat := 0
  Lineage : String := ""
  RootOutputs : List (String × OutputStateV4) := []
  Resources : List ResourceStateV4 := []
  CheckResults : List CheckResultsV4 := []
deriving DecidableEq, Repr

/-- StateFileV4 (types.go): the version-4 wire representation (its
hard-coded `version` field carries no data). -/
structure StateFileV4 where
  TerraformVersion : String := ""
  Serial : Nat := 0
  Lineage : String := ""
  RootOutputs : List (String × OutputStateV4) := []
  Resources : List ResourceStateV4 := []
  CheckResults : List CheckResultsV4 := []
deriving DecidableEq, Repr

/-- The distinct failure modes of `Read`/`readState`, one constructor per
`errors.New`/`fmt.Errorf` site (the message strings are carried where the
source interpolates data into them). -/
inductive ReadError
  | noState
  | legacyBinaryFormat
  | jsonVersionZero
  | version1Unsupported
  | version2Unsupported
  | version3Unsupported
  | unsupportedVersion (v : Nat) (creatingVersion : String)
  | sniffError (msg : String)
  | v4ParseError (msg : String)
deriving DecidableEq, Repr

/-- `e` rejects the snapshot because of its declared format version (the
version 0-3 messages and the `default` arm of `readState`). -/
def ReadError.isVersionRejection : ReadError → Bool
  | .jsonVersionZero => true
  | .version1Unsupported => true
  | .version2Unsupported => true
  | .version3Unsupported => true
  | .unsupportedVersion _ _ => true
  | _ => false

/-- The `encoding/json` collaborator as consumed by the decoder:
`sniffVersion` models `json.Unmarshal` into `VersionSniff`
(`sniffJSONStateVersion`, version.go), `sniffTerraformVersion` models
`sniffJSONStateTerraformVersion`, and `parseV4` models `json.Unmarshal`
into `StateFileV4` (`readStateV4`).  The `Prop` field records the
documented behaviour of `json.Unmarshal` that empty-or-whitespace input is
a syntax error, which `sniffJSONStateVersion` surfaces as a parse
failure. -/
structure JsonModel where
  sniffVersion : String → Except String Nat
  sniffTerraformVersion : String → String
  parseV4 : String → Except String StateFileV4
  sniffVersion_ws_fails :
    ∀ s : String, s ≠ "" → s.data.all isStateWhitespace = true →
      ∃ m, sniffVersion s = Except.error m

/-- readStateV4 (state reader): parse as version 4 and convert
`StateFileV4` to the common `TFStateFile` (Version hard-coded to 4, the
other fields copied). -/
def readStateV4 (J : JsonModel) (src : String) : Except ReadError TFStateFile :=
  match J.parseV4 src with
  | .error msg => .error (.v4ParseError msg)
  | .ok s =>
      .ok { Version := 4,
            TerraformVersion := s.TerraformVersion,
            Serial := s.Serial,
            Lineage := s.Lineage,
            RootOutputs := s.RootOutputs,
            Resources := s.Resources,
            CheckResults := s.CheckResults }

/-- readState (state reader): legacy-binary check, version sniff, version
dispatch (only version 4 is readable). -/
def readState (J : JsonModel) (src : String) : Except ReadError TFStateFile :=
  if looksLikeVersion0 src then .error .legacyBinaryFormat
  else
    match J.sniffVersion src with
    | .error msg => .error (.sniffError msg)
    | .ok 0 => .error .jsonVersionZero
    | .ok 1 => .error .version1Unsupported
    | .ok 2 => .error .version2Unsupported
    | .ok 3 => .error .version3Unsupported
    | .ok 4 => readStateV4 J src
    | .ok (n + 5) => .error (.unsupportedVersion (n + 5) (J.sniffTerraformVersion src))

/-- Read (state reader): the byte stream is modelled as the `String`
delivered by `io.ReadAll`; the nil-file and read-error paths of the Go
function are I/O concerns outside the model.  Zero-length input is
`ErrNoState`. -/
def Read (J : JsonModel) (src : String) : Except ReadError TFStateFile :=
  if src.length = 0 then .error .noState
  else readState J src

/-! ## Result aggregation (processResources, app.go and sortResults, output.go) -/

/-- One step of the result-collection loop of `processResources`
(app.go lines 145-172): route a received status into its category bucket,
and for POTENTIAL_IMPORT / DANGEROUS / REGION_MISMATCH also append its
non-empty remediation command.  Statuses with any other category string
are dropped (the Go switch has no default arm). -/
def routeStatus (results : categorizedResults) (status : ResourceStatus) : categorizedResults :=
  match status.Category with
  | "INFO" => { results with InfoResults := results.InfoResults ++ [status] }
  | "OK" => { results with OkResults := results.OkResults ++ [status] }
  | "WARNING" => { results with WarningResults := results.WarningResults ++ [status] }
  | "ERROR" => { results with ErrorResults := results.ErrorResults ++ [status] }
  | "POTENTIAL_IMPORT" =>
      let results := { results with
        PotentialImportResults := results.PotentialImportResults ++ [status] }
      if status.Command ≠ "" then
        { results with RunCommands := results.RunCommands ++ [status.Command] }
      else results
  | "DANGEROUS" =>
      let results := { results with
        DangerousResults := results.DangerousResults ++ [status] }
      if status.Command ≠ "" then
        { results with RunCommands := results.RunCommands ++ [status.Command] }
      else results
  | "REGION_MISMATCH" =>
      let results := { results with
        RegionMismatchResults := results.RegionMismatchResults ++ [status] }
      if status.Command ≠ "" then
        { results with RunCommands := results.RunCommands ++ [status.Command] }
      else results
  | _ => results

/-- The collection phase of `processResources`: fold the arrival-ordered
stream of classified results into the category buckets. -/
def collectResults (arrivals : List ResourceStatus) : categorizedResults :=
  arrivals.foldl routeStatus {}

/-- One bucket sort of `sortResults` (output.go): `sort.Slice` by
`TerraformAddress`.  `sort.Slice` is an unspecified comparison sort; it is
modelled by `mergeSort`, and claim C5 establishes that under the
address-uniqueness invariant every sorted rearrangement coincides. -/
def sortByAddress (l : List ResourceStatus) : List ResourceStatus :=
  l.mergeSort (fun a b => a.TerraformAddress ≤ b.TerraformAddress)

/-- `sort.Strings` of the remediation command list. -/
def sortStringsGo (l : List String) : List String :=
  l.mergeSort (fun a b => a ≤ b)

/-- sortResults (output.go lines 52-67): sort every category bucket by
Terraform address and sort the command list. -/
def sortResults (results : categorizedResults) : categorizedResults :=
  { InfoResults := sortByAddress results.InfoResults,
    OkResults := sortByAddress results.OkResults,
    WarningResults := sortByAddress results.WarningResults,
    ErrorResults := sortByAddress results.ErrorResults,
    PotentialImportResults := sortByAddress results.PotentialImportResults,
    DangerousResults := sortByAddress results.DangerousResults,
    RegionMismatchResults := sortByAddress results.RegionMismatchResults,
    RunCommands := sortStringsGo results.RunCommands }

/-- The multiset of classified results produced by the worker goroutines
of `processResources` (app.go lines 119-137): one per
(resource, instance) pair, with the Kind override performed in the
goroutine body.  The goroutines deliver them to the channel in a
scheduler-dependent arrival order, so `processResources` equals
`collectResults` applied to some permutation of this list; the permutation
is a parameter of the model. -/
def statusesOf (oracle : Oracle) (tfState : TFStateFile) (awsRegion : String) :
    List ResourceStatus :=
  tfState.Resources.flatMap (fun res =>
    res.Instances.map (fun inst =>
      let status := (processResourceInstance oracle res inst awsRegion).1
      { status with Kind := if res.Mode == "data" then "data" else "resource" }))

/-- The Inventory Provider calls issued while producing `statusesOf`. -/
def verifyCallsOf (oracle : Oracle) (tfState : TFStateFile) (awsRegion : String) :
    List VerifyCall :=
  tfState.Resources.flatMap (fun res =>
    res.Instances.flatMap (fun inst =>
      (processResourceInstance oracle res inst awsRegion).2))

/-- The number of `go` statements executed by the dispatch loop of
`processResources`: one goroutine is spawned per declared instance
(`wg.Add(1); go func(...)` inside the nested loops). -/
def goStatementCount (tfState : TFStateFile) : Nat :=
  (tfState.Resources.map (fun res => res.Instances.length)).sum

/-- The capacity of the results channel
`make(chan ResourceStatus, concurrency)` — the only place the
configured concurrency limit enters `processResources`. -/
def resultsChanCapacity (concurrency : Nat) : Nat := concurrency

/-! ## Backup & Integrity Manager (state.go, the path/copy/hash helpers)

File-system and S3 effects are modelled as a trace of `Action`s; the
results of external effects (hash computations, stat/copy/write success)
are supplied by an environment record, one field per effect site, in
source order. -/

/-- Externally visible effects of the backup/report/upload phase. -/
inductive Action
  | downloadS3 (localPath bucket key : String)
  | copyFile (src dst : String)
  | writeFile (path content : String)
  | uploadFile (localPath bucket key : String)
  | uploadString (content bucket key : String)
  | uploadState (localPath bucket key : String)
  | execCommand (cmd : String)
  | verify (c : VerifyCall)
deriving DecidableEq, Repr

/-- Config (types.go), the fields the modelled functions read. -/
structure Config where
  StateFilePath : String := ""
  AWSRegion : String := ""
  Concurrency : Nat := 10
  S3State : String := ""
  ShowVersion : Bool := false
  IsS3State : Bool := false
  S3Bucket : String := ""
  S3Key : String := ""
  ExecuteCommands : Bool := false
  BackupsDir : String := ""
  JsonOutput : Bool := false
deriving DecidableEq, Repr

/-- Go `strings.HasSuffix`. -/
def goHasSuffix (s suffix : String) : Bool :=
  suffix.data.isSuffixOf s.data

/-- createBackupPath (path helpers): deterministic artifact path
`baseDir/YYYY/MM/<timestamp>/<prefix>.<cleanBaseName><finalExtension>`.
The `time.Now().Format("2006/01")` call inside the Go function is the
`yearMonth` parameter of the model, and the `os.MkdirAll` fallback (which
only relocates the file into `baseDir` when directory creation fails) is
taken as succeeding.  The Go parameter `prefix` is renamed
`rolePrefix`. -/
def createBackupPath (yearMonth : String)
    (baseDir originalFileName rolePrefix timestamp finalExtension : String) : String :=
  let base := goBase originalFileName
  let nameWithoutTfstateExt := goTrimSuffix (goToLower base) ".tfstate"
  let cleanBaseName := goTrimSuffix nameWithoutTfstateExt (goExt nameWithoutTfstateExt)
  let cleanBaseName :=
    if cleanBaseName = "" ∧ goHasSuffix (goToLower base) ".tfstate" then
      goTrimSuffix base ".tfstate"
    else if cleanBaseName = "" then base
    else cleanBaseName
  let dir := goJoin (goJoin baseDir yearMonth) timestamp
  goJoin dir (rolePrefix ++ "." ++ cleanBaseName ++ finalExtension)

/-- Environment of `setupStateFileForProcessing`: the results of its
external effects, in source order. -/
structure SetupEnv where
  tempPath : String := "tfstate-download-1.tfstate"
  downloadOk : Bool := true
  copyOriginalOk : Bool := true
  originalHashCalc : Option String := none
  yearMonth : String := "2025/10"

/-- setupStateFileForProcessing (state.go lines 12-56): resolve the local
working copy (downloading from S3 when configured), back up the original
bytes, hash the backup and write the hash companion.  Returns the trace,
the local path, the original hash (`""` when backup or hashing failed —
those failures are logged warnings in the source) and the fatal error, if
any (only the S3 download can fail fatally). -/
def setupStateFileForProcessing (env : SetupEnv) (config : Config)
    (originalBaseFileName timestamp : String) :
    List Action × String × String × Option String :=
  let (pre, localPath, ok) :=
    if config.IsS3State then
      ([Action.downloadS3 env.tempPath config.S3Bucket config.S3Key],
       env.tempPath, env.downloadOk)
    else ([], config.StateFilePath, true)
  if ¬ ok then (pre, "", "", some "failed to download state from S3")
  else
    let originalBackupLocalPath :=
      createBackupPath env.yearMonth config.BackupsDir originalBaseFileName
        "original" timestamp ".tfstate"
    let trace := pre ++ [Action.copyFile localPath originalBackupLocalPath]
    if env.copyOriginalOk then
      match env.originalHashCalc with
      | some hash =>
          (trace ++ [Action.writeFile (originalBackupLocalPath ++ ".sha256") hash],
           localPath, hash, none)
      | none => (trace, localPath, "", none)
    else (trace, localPath, "", none)

/-- Environment of `handlePostReconciliationBackupsAndUpload`: the results
of its external effects, in source order. -/
structure PostEnv where
  calcNewHash : Option String := none
  mdReport : String := ""
  mdWriteOk : Bool := true
  mdHashCalc : Option String := none
  statLocalOk : Bool := true
  copyNewOk : Bool := true
  jsonRenderOk : Bool := true
  jsonReport : String := ""
  jsonWriteOk : Bool := true
  jsonHashCalc : Option String := none
  statJsonOk : Bool := true
  mdHashCalcS3 : Option String := none
  jsonHashCalcS3 : Option String := none
  finalUploadErr : Option String := none
  yearMonth : String := "2025/10"

/-- The change-detection predicate of
`handlePostReconciliationBackupsAndUpload` (state.go line 84): content
changed iff both hashes were computed (a failed computation is the empty
string — a SHA-256 hex digest is never empty) and they differ. -/
def contentChangedOf (originalStateFileHash newStateFileHash : String) : Bool :=
  originalStateFileHash != "" && newStateFileHash != "" &&
    newStateFileHash != originalStateFileHash

/-- The always-executed part of `handlePostReconciliationBackupsAndUpload`
(state.go lines 86-160): Markdown report plus hash companion, the `new`
state backup plus hash companion, the JSON report plus hash companion.
The report contents come from the rendering collaborator
(`env.mdReport`/`env.jsonReport`). -/
def postReconCoreTrace (env : PostEnv) (config : Config)
    (localStateFilePath originalBaseFileName timestamp : String)
    (newStateFileHash : String) : List Action :=
  let reportLocalPathMD :=
    createBackupPath env.yearMonth config.BackupsDir originalBaseFileName
      "report" timestamp ".md"
  let newLocalStatePath :=
    createBackupPath env.yearMonth config.BackupsDir originalBaseFileName
      "new" timestamp ".tfstate"
  let reportLocalPathJSON :=
    createBackupPath env.yearMonth config.BackupsDir originalBaseFileName
      "report" timestamp ".json"
  [Action.writeFile reportLocalPathMD env.mdReport] ++
  (if env.mdWriteOk then
     match env.mdHashCalc with
     | some h => [Action.writeFile (reportLocalPathMD ++ ".sha256") h]
     | none => []
   else []) ++
  (if env.statLocalOk then
     [Action.copyFile localStateFilePath newLocalStatePath] ++
     (if env.copyNewOk then
        (if newStateFileHash ≠ "" then
           [Action.writeFile (newLocalStatePath ++ ".sha256") newStateFileHash]
         else [])
      else [])
   else []) ++
  (if env.jsonRenderOk then
     [Action.writeFile reportLocalPathJSON env.jsonReport] ++
     (if env.jsonWriteOk then
        match env.jsonHashCalc with
        | some h => [Action.writeFile (reportLocalPathJSON ++ ".sha256") h]
        | none => []
      else [])
   else [])

/-- The `newLocalStatePath` value after the copy block of
`handlePostReconciliationBackupsAndUpload` (emptied when the source state
file is missing or the copy failed). -/
def newLocalStatePathOf (env : PostEnv) (config : Config)
    (originalBaseFileName timestamp : String) : String :=
  if env.statLocalOk && env.copyNewOk then
    createBackupPath env.yearMonth config.BackupsDir originalBaseFileName
      "new" timestamp ".tfstate"
  else ""

/-- The S3 backup uploads of the `config.IsS3State && contentChanged`
branch (state.go lines 162-239), excluding the final publish. -/
def postReconS3Tail (env : PostEnv) (config : Config)
    (originalBaseFileName timestamp yearMonth : String)
    (originalStateFileHash newStateFileHash : String) : List Action :=
  let s3BackupPrefix := "state-backups/" ++ yearMonth ++ "/" ++ timestamp ++ "/"
  let originalS3BackupKey := s3BackupPrefix ++ "original." ++ originalBaseFileName
  let originalBackupLocalPathForS3 :=
    createBackupPath env.yearMonth config.BackupsDir originalBaseFileName
      "original" timestamp ".tfstate"
  let newLocalStatePath := newLocalStatePathOf env config originalBaseFileName timestamp
  let reportLocalPathMD :=
    createBackupPath env.yearMonth config.BackupsDir originalBaseFileName
      "report" timestamp ".md"
  let reportLocalPathJSON :=
    createBackupPath env.yearMonth config.BackupsDir originalBaseFileName
      "report" timestamp ".json"
  let reportS3KeyMD := s3BackupPrefix ++ "report." ++ originalBaseFileName ++ ".md"
  let reportS3KeyJSON := s3BackupPrefix ++ "report." ++ originalBaseFileName ++ ".json"
  [Action.uploadFile originalBackupLocalPathForS3 config.S3Bucket originalS3BackupKey] ++
  (if originalStateFileHash ≠ "" then
     [Action.uploadString originalStateFileHash config.S3Bucket
        (originalS3BackupKey ++ ".sha256")]
   else []) ++
  (if newLocalStatePath ≠ "" then
     let newS3BackupKey := s3BackupPrefix ++ "new." ++ originalBaseFileName
     [Action.uploadFile newLocalStatePath config.S3Bucket newS3BackupKey] ++
     (if newStateFileHash ≠ "" then
        [Action.uploadString newStateFileHash config.S3Bucket
           (newS3BackupKey ++ ".sha256")]
      else [])
   else []) ++
  [Action.uploadFile reportLocalPathMD config.S3Bucket reportS3KeyMD] ++
  (match env.mdHashCalcS3 with
   | some h => [Action.uploadString h config.S3Bucket (reportS3KeyMD ++ ".sha256")]
   | none => []) ++
  (if env.statJsonOk then
     [Action.uploadFile reportLocalPathJSON config.S3Bucket reportS3KeyJSON] ++
     (match env.jsonHashCalcS3 with
      | some h => [Action.uploadString h config.S3Bucket (reportS3KeyJSON ++ ".sha256")]
      | none => [])
   else [])

/-- handlePostReconciliationBackupsAndUpload (state.go lines 59-255):
recompute the post-run hash, derive `contentChanged`, always write the
report artifacts and the `new` backup, and — only for an S3-backed state
whose content changed — upload the backups and finally publish the working
state back to its original S3 location. -/
def handlePostReconciliationBackupsAndUpload (env : PostEnv) (config : Config)
    (localStateFilePath originalBaseFileName timestamp yearMonth : String)
    (stateFileModified : Bool) (originalStateFileHash : String) :
    List Action × Option String :=
  let newStateFileHash := (env.calcNewHash).getD ""
  let contentChanged := contentChangedOf originalStateFileHash newStateFileHash
  let core := postReconCoreTrace env config localStateFilePath
    originalBaseFileName timestamp newStateFileHash
  if config.IsS3State && contentChanged then
    (core ++
     postReconS3Tail env config originalBaseFileName timestamp yearMonth
       originalStateFileHash newStateFileHash ++
     [Action.uploadState localStateFilePath config.S3Bucket config.S3Key],
     env.finalUploadErr)
  else (core, none)

/-! ## The run (runApplication, app.go) -/

/-- Environment of a whole run: initialisation results, the setup and
post-reconciliation environments, the bytes of the working state file as
read back by `openAndReadStateFile`, and the Command Runner outcome. -/
structure RunEnv where
  awsInitOk : Bool := true
  mkdirBackupsOk : Bool := true
  setup : SetupEnv := {}
  stateContent : String := ""
  execErr : Bool := false
  execModified : Bool := false
  post : PostEnv := {}

/-- runApplication (app.go lines 10-100) up to its externally visible
effects.  `openAndReadStateFile` aborts the process via `log.Fatalf` on a
decode failure, so the returned trace ends with the setup trace in that
case.  The concurrent phase contributes its Inventory Provider calls; its
arrival order does not influence the sorted results (claim C5), so the
enumeration order stands in for it.  `handleExecution` (exec.go) delegates
the sorted `RunCommands` to the Command Runner collaborator whose outcome
(`execErr`, `execModified`) is part of the environment; the argument
rewriting performed by `executeCommands` is internal to that collaborator
call. -/
def runApplication (env : RunEnv) (J : JsonModel) (oracle : Oracle) (config : Config)
    (originalBaseFileName timestamp yearMonth : String) : List Action × Bool :=
  if ¬ env.awsInitOk then ([], false)
  else if ¬ env.mkdirBackupsOk then ([], false)
  else
    match setupStateFileForProcessing env.setup config originalBaseFileName timestamp with
    | (setupTrace, _, _, some _) => (setupTrace, false)
    | (setupTrace, localStateFilePath, originalStateFileHash, none) =>
      match Read J env.stateContent with
      | .error _ => (setupTrace, false)
      | .ok tfStateFile =>
        let results := sortResults (collectResults
          (statusesOf oracle tfStateFile config.AWSRegion))
        let trace := setupTrace ++
          (verifyCallsOf oracle tfStateFile config.AWSRegion).map Action.verify
        let (trace, stateFileModified) :=
          if config.ExecuteCommands then
            let trace := trace ++ results.RunCommands.map Action.execCommand
            if env.execErr then (trace, env.execModified)
            else
              (trace ++
               (if config.IsS3State && env.execModified then
                  [Action.uploadState localStateFilePath config.S3Bucket config.S3Key]
                else []),
               env.execModified)
          else (trace, false)
        let (postTrace, postErr) :=
          handlePostReconciliationBackupsAndUpload env.post config
            localStateFilePath originalBaseFileName timestamp yearMonth
            stateFileModified originalStateFileHash
        (trace ++ postTrace, postErr.isNone)

/-! ## Supporting lemmas -/

theorem extractRegionFromARN_empty : extractRegionFromARN "" = "" := by decide

/-- Any instance whose parsed attributes carry an extracted identifier with
a non-empty region different from the configured region is classified by
the fast path: REGION_MISMATCH, `terraform state rm` command, and no
Inventory Provider call. -/
theorem fast_path_short_circuit (oracle : Oracle) (resource : ResourceStateV4)
    (inst : InstanceObjectStateV4) (m : Attrs) (currentFlagRegion : String)
    (hattrs : inst.attrs = .parsed m)
    (hregion : extractRegionFromARN (arnInStateOf m) ≠ "")
    (hmismatch : extractRegionFromARN (arnInStateOf m) ≠ currentFlagRegion) :
    (processResourceInstance oracle resource inst currentFlagRegion).1.Category =
        "REGION_MISMATCH" ∧
    (processResourceInstance oracle resource inst currentFlagRegion).1.Command =
        "terraform state rm " ++ tfAddressOf resource inst ∧
    (processResourceInstance oracle resource inst currentFlagRegion).2 = [] := by
  have hne : arnInStateOf m ≠ "" := by
    intro h
    exact hregion (by rw [h, extractRegionFromARN_empty])
  obtain ⟨ik, attrs⟩ := inst
  simp only [InstanceObjectStateV4.attrs] at hattrs
  subst hattrs
  simp only [processResourceInstance]
  rw [if_pos ⟨hne, hregion, hmismatch⟩]
  exact ⟨rfl, rfl, rfl⟩

/-! ## Claim C1 -/

/-- C1: for every declared resource instance whose attributes carry an
extracted colon-delimited identifier whose region segment is non-empty
and differs from the run's configured target region,
`processResourceInstance` classifies the instance as REGION_MISMATCH with
a `terraform state rm` remediation command and returns without invoking
any per-kind verifier (zero Inventory Provider calls). -/
theorem C1_region_fast_path (oracle : Oracle) (resource : ResourceStateV4)
    (inst : InstanceObjectStateV4) (m : Attrs) (currentFlagRegion : String)
    (hattrs : inst.attrs = .parsed m)
    (hregion : extractRegionFromARN (arnInStateOf m) ≠ "")
    (hmismatch : extractRegionFromARN (arnInStateOf m) ≠ currentFlagRegion) :
    (processResourceInstance oracle resource inst currentFlagRegion).1.Category =
        "REGION_MISMATCH" ∧
    (processResourceInstance oracle resource inst currentFlagRegion).1.Command =
        "terraform state rm " ++ tfAddressOf resource inst ∧
    (processResourceInstance oracle resource inst currentFlagRegion).2 = [] :=
  fast_path_short_circuit oracle resource inst m currentFlagRegion hattrs hregion hmismatch

/-- A verifier-backed kind (`aws_s3_bucket`) with a cross-region ARN in
its attributes: REGION_MISMATCH, removal command, no verifier call. -/
theorem C1_region_fast_path_witness :
    (processResourceInstance (fun _ => {})
        { Mode := "managed", Type' := "aws_s3_bucket", Name := "b" }
        { attrs := .parsed [("id", .str "b"), ("bucket", .str "b"),
            ("arn", .str "arn:aws:s3:us-east-1:123456789012:b")] }
        "us-west-2").1.Category = "REGION_MISMATCH" ∧
    (processResourceInstance (fun _ => {})
        { Mode := "managed", Type' := "aws_s3_bucket", Name := "b" }
        { attrs := .parsed [("id", .str "b"), ("bucket", .str "b"),
            ("arn", .str "arn:aws:s3:us-east-1:123456789012:b")] }
        "us-west-2").1.Command = "terraform state rm " ++
          tfAddressOf { Mode := "managed", Type' := "aws_s3_bucket", Name := "b" }
            { attrs := .parsed [("id", .str "b"), ("bucket", .str "b"),
                ("arn", .str "arn:aws:s3:us-east-1:123456789012:b")] } ∧
    (processResourceInstance (fun _ => {})
        { Mode := "managed", Type' := "aws_s3_bucket", Name := "b" }
        { attrs := .parsed [("id", .str "b"), ("bucket", .str "b"),
            ("arn", .str "arn:aws:s3:us-east-1:123456789012:b")] }
        "us-west-2").2 = [] :=
  C1_region_fast_path (fun _ => {})
    { Mode := "managed", Type' := "aws_s3_bucket", Name := "b" }
    { attrs := .parsed [("id", .str "b"), ("bucket", .str "b"),
        ("arn", .str "arn:aws:s3:us-east-1:123456789012:b")] }
    [("id", .str "b"), ("bucket", .str "b"),
     ("arn", .str "arn:aws:s3:us-east-1:123456789012:b")]
    "us-west-2" rfl (by decide) (by decide)

/-! ## Claim C3 -/

/-- C3: the fast-path short-circuit takes precedence over the other
classification conditions — for an instance with a cross-region extracted
identifier the result is REGION_MISMATCH even when the kind is a pure
data/local kind (otherwise INFO) or an unregistered kind (otherwise
WARNING). -/
theorem C3_fast_path_precedence (oracle : Oracle) (resource : ResourceStateV4)
    (inst : InstanceObjectStateV4) (m : Attrs) (currentFlagRegion : String)
    (hattrs : inst.attrs = .parsed m)
    (hregion : extractRegionFromARN (arnInStateOf m) ≠ "")
    (hmismatch : extractRegionFromARN (arnInStateOf m) ≠ currentFlagRegion)
    (hkind : resource.Type' ∈ dataLocalKinds ∨ resource.Type' ∉ supportedKinds) :
    (processResourceInstance oracle resource inst currentFlagRegion).1.Category =
      "REGION_MISMATCH" :=
  (fast_path_short_circuit oracle resource inst m currentFlagRegion hattrs
    hregion hmismatch).1

/-- A data/local kind (`aws_caller_identity`, otherwise INFO) and an
unregistered kind (`aws_foo`, otherwise WARNING), both with a cross-region
ARN: REGION_MISMATCH wins in both cases. -/
theorem C3_fast_path_precedence_witness :
    (processResourceInstance (fun _ => {})
        { Mode := "data", Type' := "aws_caller_identity", Name := "me" }
        { attrs := .parsed [("arn", .str "arn:aws:iam:eu-west-1:123456789012:x")] }
        "us-west-2").1.Category = "REGION_MISMATCH" ∧
    (processResourceInstance (fun _ => {})
        { Mode := "managed", Type' := "aws_foo", Name := "f" }
        { attrs := .parsed [("arn", .str "arn:aws:foo:eu-west-1:123456789012:x")] }
        "us-west-2").1.Category = "REGION_MISMATCH" :=
  ⟨C3_fast_path_precedence (fun _ => {})
      { Mode := "data", Type' := "aws_caller_identity", Name := "me" }
      { attrs := .parsed [("arn", .str "arn:aws:iam:eu-west-1:123456789012:x")] }
      [("arn", .str "arn:aws:iam:eu-west-1:123456789012:x")]
      "us-west-2" rfl (by decide) (by decide) (Or.inl (by decide)),
   C3_fast_path_precedence (fun _ => {})
      { Mode := "managed", Type' := "aws_foo", Name := "f" }
      { attrs := .parsed [("arn", .str "arn:aws:foo:eu-west-1:123456789012:x")] }
      [("arn", .str "arn:aws:foo:eu-west-1:123456789012:x")]
      "us-west-2" rfl (by decide) (by decide) (Or.inr (by decide))⟩

/-! ## Claim C2 -/

/-- C2: when the verifier returns `(liveID, exists = true, error = nil)`,
the classifier assigns OK with no remediation command iff the live ID
matches the declared state ID case-insensitively or the declared state ID
is empty; otherwise it assigns POTENTIAL_IMPORT with a
`terraform import <address> <liveID>` command.  (`base` is the partially
filled status in scope at the classification tail; its command field is
empty there.) -/
theorem C2_exists_true_classification (tfAddress stateID liveID : String)
    (base : ResourceStatus) (hbase : base.Command = "") :
    ((stringsEqualFold stateID liveID = true ∨ stateID = "") →
        (finishClassification tfAddress stateID base liveID true none).Category = "OK" ∧
        (finishClassification tfAddress stateID base liveID true none).Command = "") ∧
    ((stringsEqualFold stateID liveID = false ∧ stateID ≠ "") →
        (finishClassification tfAddress stateID base liveID true none).Category =
          "POTENTIAL_IMPORT" ∧
        (finishClassification tfAddress stateID base liveID true none).Command =
          "terraform import " ++ tfAddress ++ " " ++ liveID) := by
  constructor
  · intro h
    have hcond : (stringsEqualFold stateID liveID || stateID == "") = true := by
      rcases h with h | h
      · simp [h]
      · simp [h]
    simp [finishClassification, hcond, hbase]
  · intro ⟨h1, h2⟩
    have hcond : (stringsEqualFold stateID liveID || stateID == "") = false := by
      simp [h1, h2]
    simp [finishClassification, hcond]

/-- The two spec scenarios: declared `sg-123` with live `SG-123`
(case-insensitive match → OK, no command) and declared `sg-123` with live
`sg-456` (→ POTENTIAL_IMPORT with an import command referencing
`sg-456`). -/
theorem C2_exists_true_classification_witness :
    ((finishClassification "aws_security_group.web" "sg-123"
        { TerraformAddress := "aws_security_group.web", StateID := "sg-123" }
        "SG-123" true none).Category = "OK" ∧
     (finishClassification "aws_security_group.web" "sg-123"
        { TerraformAddress := "aws_security_group.web", StateID := "sg-123" }
        "SG-123" true none).Command = "") ∧
    ((finishClassification "aws_security_group.web" "sg-123"
        { TerraformAddress := "aws_security_group.web", StateID := "sg-123" }
        "sg-456" true none).Category = "POTENTIAL_IMPORT" ∧
     (finishClassification "aws_security_group.web" "sg-123"
        { TerraformAddress := "aws_security_group.web", StateID := "sg-123" }
        "sg-456" true none).Command =
          "terraform import aws_security_group.web sg-456") :=
  ⟨(C2_exists_true_classification "aws_security_group.web" "sg-123" "SG-123"
      { TerraformAddress := "aws_security_group.web", StateID := "sg-123" }
      rfl).1 (Or.inl (by decide)),
   (C2_exists_true_classification "aws_security_group.web" "sg-123" "sg-456"
      { TerraformAddress := "aws_security_group.web", StateID := "sg-123" }
      rfl).2 ⟨by decide, by decide⟩⟩

/-! ## Claim C4 -/

/-- The first non-whitespace byte of the stream, if any. -/
def firstNonWhitespace : List Char → Option Char
  | [] => none
  | c :: rest => if isStateWhitespace c then firstNonWhitespace rest else some c

theorem looksLikeVersion0Chars_of_firstNonWs {l : List Char} {c : Char}
    (h : firstNonWhitespace l = some c) (h1 : c ≠ leftCurly) (h2 : c ≠ '[') :
    looksLikeVersion0Chars l = true := by
  induction l with
  | nil => simp [firstNonWhitespace] at h
  | cons b rest ih =>
    by_cases hb : isStateWhitespace b
    · rw [firstNonWhitespace, if_pos hb] at h
      rw [looksLikeVersion0Chars, if_pos hb]
      exact ih h
    · rw [firstNonWhitespace, if_neg hb] at h
      cases h
      rw [looksLikeVersion0Chars, if_neg hb, if_neg (by tauto)]

theorem looksLikeVersion0Chars_allWs {l : List Char}
    (h : l.all isStateWhitespace = true) :
    looksLikeVersion0Chars l = false := by
  induction l with
  | nil => rfl
  | cons b rest ih =>
    simp only [List.all_cons, Bool.and_eq_true] at h
    rw [looksLikeVersion0Chars, if_pos h.1]
    exact ih h.2

theorem firstNonWs_ne_nil {l : List Char} {c : Char}
    (h : firstNonWhitespace l = some c) : l ≠ [] := by
  intro hl
  subst hl
  simp [firstNonWhitespace] at h

theorem readState_ne_noState (J : JsonModel) (src : String) :
    readState J src ≠ Except.error ReadError.noState := by
  unfold readState readStateV4
  split
  · simp
  · split
    · simp
    · simp
    · simp
    · simp
    · simp
    · split <;> simp
    · simp

/-- C4: the decoder fails with the empty-state error exactly on zero-length
input; all-whitespace input also fails (with a JSON parse failure); a
stream whose first non-whitespace byte is neither a brace nor a bracket
fails with the legacy-binary-format error; a declared format version other
than 4 fails with a version-rejecting error; and a success implies the
document declared version 4 and parsed as such, the model being the field
copy of the parsed document. -/
theorem C4_decoder_error_modes (J : JsonModel) (src : String) :
    (Read J src = .error .noState ↔ src.length = 0) ∧
    (src ≠ "" → src.data.all isStateWhitespace = true →
        ∃ e, Read J src = .error e) ∧
    (∀ c, firstNonWhitespace src.data = some c → c ≠ leftCurly → c ≠ '[' →
        Read J src = .error .legacyBinaryFormat) ∧
    (∀ v, J.sniffVersion src = .ok v → v ≠ 4 → looksLikeVersion0 src = false →
        src ≠ "" → ∃ e, Read J src = .error e ∧ e.isVersionRejection = true) ∧
    (∀ f, Read J src = .ok f →
        J.sniffVersion src = .ok 4 ∧
        ∃ s4, J.parseV4 src = .ok s4 ∧
          f = { Version := 4,
                TerraformVersion := s4.TerraformVersion,
                Serial := s4.Serial,
                Lineage := s4.Lineage,
                RootOutputs := s4.RootOutputs,
                Resources := s4.Resources,
                CheckResults := s4.CheckResults }) := by
  have hlen : src.length = src.data.length := rfl
  refine ⟨?_, ?_, ?_, ?_, ?_⟩
  · constructor
    · intro h
      by_contra hne
      rw [Read, if_neg hne] at h
      exact readState_ne_noState J src h
    · intro h
      rw [Read, if_pos h]
  · intro hne hws
    have hnz : ¬ src.length = 0 := by
      intro h0
      exact hne (by
        cases src with
        | mk data =>
          cases data with
          | nil => rfl
          | cons c cs => simp [String.length] at h0)
    obtain ⟨m, hm⟩ := J.sniffVersion_ws_fails src hne hws
    refine ⟨.sniffError m, ?_⟩
    rw [Read, if_neg hnz, readState,
      if_neg (by rw [looksLikeVersion0, looksLikeVersion0Chars_allWs hws]; simp), hm]
  · intro c hc h1 h2
    have hnz : ¬ src.length = 0 := by
      rw [hlen, List.length_eq_zero]
      exact firstNonWs_ne_nil hc
    rw [Read, if_neg hnz, readState,
      if_pos (by rw [looksLikeVersion0]; exact looksLikeVersion0Chars_of_firstNonWs hc h1 h2)]
  · intro v hv hv4 hlegacy hne
    have hnz : ¬ src.length = 0 := by
      intro h0
      exact hne (by
        cases src with
        | mk data =>
          cases data with
          | nil => rfl
          | cons c cs => simp [String.length] at h0)
    rw [Read, if_neg hnz, readState, if_neg (by rw [hlegacy]; simp), hv]
    match v, hv4 with
    | 0, _ => exact ⟨.jsonVersionZero, rfl, rfl⟩
    | 1, _ => exact ⟨.version1Unsupported, rfl, rfl⟩
    | 2, _ => exact ⟨.version2Unsupported, rfl, rfl⟩
    | 3, _ => exact ⟨.version3Unsupported, rfl, rfl⟩
    | 4, h => exact absurd rfl h
    | (n + 5), _ =>
        exact ⟨.unsupportedVersion (n + 5) (J.sniffTerraformVersion src), rfl, rfl⟩
  · intro f hf
    rw [Read] at hf
    by_cases hz : src.length = 0
    · rw [if_pos hz] at hf
      exact absurd hf (by simp)
    · rw [if_neg hz, readState] at hf
      by_cases hlegacy : looksLikeVersion0 src = true
      · rw [if_pos hlegacy] at hf
        exact absurd hf (by simp)
      · rw [if_neg hlegacy] at hf
        cases hv : J.sniffVersion src with
        | error m => rw [hv] at hf; exact absurd hf (by simp)
        | ok v =>
          rw [hv] at hf
          match v with
          | 0 | 1 | 2 | 3 => exact absurd hf (by simp)
          | (n + 5) => exact absurd hf (by simp)
          | 4 =>
            rw [readStateV4] at hf
            cases hp : J.parseV4 src with
            | error m => rw [hp] at hf; exact absurd hf (by simp)
            | ok s4 =>
              rw [hp] at hf
              cases hf
              exact ⟨rfl, s4, rfl, rfl⟩

/-- A stand-in version-99 snapshot document (the braces are written with
escapes). -/
def doc99 : String := "\x7b\"version\": 99\x7d"

/-- A concrete `encoding/json` model used by concrete runs: it recognizes
`doc99` as declaring version 99 and rejects everything else as invalid
JSON. -/
def J99 : JsonModel where
  sniffVersion := fun s => if s = doc99 then .ok 99 else .error "invalid JSON"
  sniffTerraformVersion := fun _ => ""
  parseV4 := fun _ => .error "not a version-4 document"
  sniffVersion_ws_fails := by
    intro s hne hws
    refine ⟨"invalid JSON", ?_⟩
    have hd : s ≠ doc99 := by
      intro h
      subst h
      exact absurd hws (by decide)
    simp [hd]

/-- The decoder error modes at concrete inputs: empty input, a legacy
binary stream, whitespace-only input, and the version-99 document. -/
theorem C4_decoder_error_modes_witness :
    Read J99 "" = Except.error ReadError.noState ∧
    Read J99 "tfstate" = Except.error ReadError.legacyBinaryFormat ∧
    (∃ e, Read J99 " " = Except.error e) ∧
    (∃ e, Read J99 doc99 = Except.error e ∧ e.isVersionRejection = true) :=
  ⟨(C4_decoder_error_modes J99 "").1.mpr (by decide),
   (C4_decoder_error_modes J99 "tfstate").2.2.1 't' (by decide) (by decide) (by decide),
   (C4_decoder_error_modes J99 " ").2.1 (by decide) (by decide),
   (C4_decoder_error_modes J99 doc99).2.2.2.1 99 rfl (by decide)
     (by decide) (by decide)⟩

/-! ## Claim C5 -/

/-- The commands contributed to `RunCommands` by one received status:
its non-empty `Command` when the category is POTENTIAL_IMPORT, DANGEROUS
or REGION_MISMATCH. -/
def runCommandOf (s : ResourceStatus) : Option String :=
  if (s.Category == "POTENTIAL_IMPORT" || s.Category == "DANGEROUS" ||
      s.Category == "REGION_MISMATCH") && s.Command != "" then some s.Command
  else none

theorem routeStatus_info (acc : categorizedResults) (s : ResourceStatus) :
    (routeStatus acc s).InfoResults =
      acc.InfoResults ++ (if s.Category == "INFO" then [s] else []) := by
  unfold routeStatus
  split <;> (try split) <;> simp_all

theorem routeStatus_ok (acc : categorizedResults) (s : ResourceStatus) :
    (routeStatus acc s).OkResults =
      acc.OkResults ++ (if s.Category == "OK" then [s] else []) := by
  unfold routeStatus
  split <;> (try split) <;> simp_all

theorem routeStatus_warning (acc : categorizedResults) (s : ResourceStatus) :
    (routeStatus acc s).WarningResults =
      acc.WarningResults ++ (if s.Category == "WARNING" then [s] else []) := by
  unfold routeStatus
  split <;> (try split) <;> simp_all

theorem routeStatus_error (acc : categorizedResults) (s : ResourceStatus) :
    (routeStatus acc s).ErrorResults =
      acc.ErrorResults ++ (if s.Category == "ERROR" then [s] else []) := by
  unfold routeStatus
  split <;> (try split) <;> simp_all

theorem routeStatus_potentialImport (acc : categorizedResults) (s : ResourceStatus) :
    (routeStatus acc s).PotentialImportResults =
      acc.PotentialImportResults ++
        (if s.Category == "POTENTIAL_IMPORT" then [s] else []) := by
  unfold routeStatus
  split <;> (try split) <;> simp_all

theorem routeStatus_dangerous (acc : categorizedResults) (s : ResourceStatus) :
    (routeStatus acc s).DangerousResults =
      acc.DangerousResults ++ (if s.Category == "DANGEROUS" then [s] else []) := by
  unfold routeStatus
  split <;> (try split) <;> simp_all

theorem routeStatus_regionMismatch (acc : categorizedResults) (s : ResourceStatus) :
    (routeStatus acc s).RegionMismatchResults =
      acc.RegionMismatchResults ++
        (if s.Category == "REGION_MISMATCH" then [s] else []) := by
  unfold routeStatus
  split <;> (try split) <;> simp_all

theorem routeStatus_runCommands (acc : categorizedResults) (s : ResourceStatus) :
    (routeStatus acc s).RunCommands =
      acc.RunCommands ++ (runCommandOf s).toList := by
  unfold routeStatus runCommandOf
  split <;> (try split) <;> simp_all

theorem collectResults_filter_aux (l : List ResourceStatus)
    (cat : String)
    (proj : categorizedResults → List ResourceStatus)
    (hstep : ∀ acc s, proj (routeStatus acc s) =
      proj acc ++ (if s.Category == cat then [s] else [])) :
    ∀ acc : categorizedResults,
      proj (l.foldl routeStatus acc) =
        proj acc ++ l.filter (fun s => s.Category == cat) := by
  induction l with
  | nil => intro acc; simp
  | cons s l ih =>
    intro acc
    rw [List.foldl_cons, ih, hstep, List.filter_cons]
    by_cases h : s.Category == cat <;> simp [h]

theorem collectResults_runCommands (l : List ResourceStatus) :
    (collectResults l).RunCommands = l.filterMap runCommandOf := by
  have haux : ∀ acc : categorizedResults,
      (l.foldl routeStatus acc).RunCommands =
        acc.RunCommands ++ l.filterMap runCommandOf := by
    induction l with
    | nil => intro acc; simp
    | cons s l ih =>
      intro acc
      rw [List.foldl_cons, ih, routeStatus_runCommands, List.filterMap_cons]
      cases h : runCommandOf s <;> simp
  simpa using haux {}

/-- The comparison function of the address sorts in `sortResults`. -/
def leAddr (a b : ResourceStatus) : Bool :=
  a.TerraformAddress ≤ b.TerraformAddress

theorem leAddr_trans (a b c : ResourceStatus)
    (hab : leAddr a b = true) (hbc : leAddr b c = true) : leAddr a c = true := by
  simp only [leAddr, decide_eq_true_eq] at *
  exact le_trans hab hbc

theorem leAddr_total (a b : ResourceStatus) : (leAddr a b || leAddr b a) = true := by
  simp only [leAddr, Bool.or_eq_true, decide_eq_true_eq]
  exact le_total _ _

/-- Sorting by address is order-insensitive on lists with pairwise
distinct addresses: any two permutations sort to the same list. -/
theorem sortByAddress_perm_eq {l1 l2 : List ResourceStatus}
    (hperm : l1.Perm l2)
    (hd : (l1.map ResourceStatus.TerraformAddress).Nodup) :
    sortByAddress l1 = sortByAddress l2 := by
  have sorted_strict : ∀ l : List ResourceStatus,
      (l.map ResourceStatus.TerraformAddress).Nodup →
      List.Sorted (fun a b : ResourceStatus =>
        a.TerraformAddress < b.TerraformAddress) (l.mergeSort leAddr) := by
    intro l hl
    have hle : List.Pairwise (fun a b => leAddr a b = true) (l.mergeSort leAddr) :=
      List.sorted_mergeSort leAddr_trans leAddr_total l
    have hnd : ((l.mergeSort leAddr).map ResourceStatus.TerraformAddress).Nodup :=
      (((List.mergeSort_perm l leAddr).map ResourceStatus.TerraformAddress).symm).nodup hl
    have hne : List.Pairwise (fun a b : ResourceStatus =>
        a.TerraformAddress ≠ b.TerraformAddress) (l.mergeSort leAddr) :=
      List.pairwise_map.mp hnd
    exact (hle.and hne).imp (fun h => by
      have h1 : leAddr _ _ = true := h.1
      simp only [leAddr, decide_eq_true_eq] at h1
      exact lt_of_le_of_ne h1 h.2)
  have hd2 : (l2.map ResourceStatus.TerraformAddress).Nodup :=
    (hperm.map ResourceStatus.TerraformAddress).nodup hd
  have hp : (l1.mergeSort leAddr).Perm (l2.mergeSort leAddr) :=
    ((List.mergeSort_perm l1 leAddr).trans hperm).trans
      (List.mergeSort_perm l2 leAddr).symm
  haveI : IsAntisymm ResourceStatus
      (fun a b : ResourceStatus => a.TerraformAddress < b.TerraformAddress) :=
    ⟨fun a b h1 h2 => absurd h2 (not_lt_of_gt h1)⟩
  exact List.eq_of_perm_of_sorted hp (sorted_strict l1 hd) (sorted_strict l2 hd2)

/-- `sort.Strings` is order-insensitive: permutations sort equal. -/
theorem sortStringsGo_perm_eq {l1 l2 : List String} (hperm : l1.Perm l2) :
    sortStringsGo l1 = sortStringsGo l2 := by
  have htrans : ∀ a b c : String,
      (fun a b : String => (a ≤ b : Bool)) a b = true →
      (fun a b : String => (a ≤ b : Bool)) b c = true →
      (fun a b : String => (a ≤ b : Bool)) a c = true := by
    intro a b c hab hbc
    simp only [decide_eq_true_eq] at *
    exact le_trans hab hbc
  have htotal : ∀ a b : String,
      ((fun a b : String => (a ≤ b : Bool)) a b ||
       (fun a b : String => (a ≤ b : Bool)) b a) = true := by
    intro a b
    simp only [Bool.or_eq_true, decide_eq_true_eq]
    exact le_total _ _
  have hsorted : ∀ l : List String,
      List.Sorted (· ≤ ·) (l.mergeSort (fun a b => (a ≤ b : Bool))) := by
    intro l
    exact (List.sorted_mergeSort htrans htotal l).imp (fun h => by
      simpa using h)
  have hp : (l1.mergeSort (fun a b => (a ≤ b : Bool))).Perm
      (l2.mergeSort (fun a b => (a ≤ b : Bool))) :=
    ((List.mergeSort_perm l1 _).trans hperm).trans (List.mergeSort_perm l2 _).symm
  haveI : IsAntisymm String (· ≤ ·) := ⟨fun _ _ h1 h2 => le_antisymm h1 h2⟩
  exact List.eq_of_perm_of_sorted hp (hsorted l1) (hsorted l2)

/-- C5: for a fixed multiset of classified results with pairwise distinct
addresses, the per-category buckets after `sortResults` and the sorted
remediation command list are identical for every arrival permutation. -/
theorem C5_aggregation_determinism (l1 l2 : List ResourceStatus)
    (hperm : l1.Perm l2)
    (hd : (l1.map ResourceStatus.TerraformAddress).Nodup) :
    sortResults (collectResults l1) = sortResults (collectResults l2) := by
  have hfilter : ∀ cat : String,
      ((l1.filter (fun s => s.Category == cat)).map
        ResourceStatus.TerraformAddress).Nodup := by
    intro cat
    exact hd.sublist ((List.filter_sublist l1).map ResourceStatus.TerraformAddress)
  have hbucket : ∀ (cat : String)
      (proj : categorizedResults → List ResourceStatus)
      (hstep : ∀ acc s, proj (routeStatus acc s) =
        proj acc ++ (if s.Category == cat then [s] else []))
      (hempty : proj ({} : categorizedResults) = []),
      sortByAddress (proj (collectResults l1)) =
        sortByAddress (proj (collectResults l2)) := by
    intro cat proj hstep hempty
    have e1 : proj (collectResults l1) = l1.filter (fun s => s.Category == cat) := by
      have h := collectResults_filter_aux l1 cat proj hstep {}
      rw [hempty] at h
      simpa [collectResults] using h
    have e2 : proj (collectResults l2) = l2.filter (fun s => s.Category == cat) := by
      have h := collectResults_filter_aux l2 cat proj hstep {}
      rw [hempty] at h
      simpa [collectResults] using h
    rw [e1, e2]
    exact sortByAddress_perm_eq (hperm.filter _) (hfilter cat)
  unfold sortResults
  simp only [categorizedResults.mk.injEq]
  refine ⟨?_, ?_, ?_, ?_, ?_, ?_, ?_, ?_⟩
  · exact hbucket "INFO" categorizedResults.InfoResults routeStatus_info rfl
  · exact hbucket "OK" categorizedResults.OkResults routeStatus_ok rfl
  · exact hbucket "WARNING" categorizedResults.WarningResults routeStatus_warning rfl
  · exact hbucket "ERROR" categorizedResults.ErrorResults routeStatus_error rfl
  · exact hbucket "POTENTIAL_IMPORT" categorizedResults.PotentialImportResults
      routeStatus_potentialImport rfl
  · exact hbucket "DANGEROUS" categorizedResults.DangerousResults routeStatus_dangerous rfl
  · exact hbucket "REGION_MISMATCH" categorizedResults.RegionMismatchResults
      routeStatus_regionMismatch rfl
  · rw [collectResults_runCommands, collectResults_runCommands]
    exact sortStringsGo_perm_eq (hperm.filterMap runCommandOf)

/-- Two arrival orders of the same two results (distinct addresses)
aggregate and sort identically. -/
theorem C5_aggregation_determinism_witness :
    sortResults (collectResults
      [{ TerraformAddress := "aws_vpc.a", Category := "OK" },
       { TerraformAddress := "aws_vpc.b", Category := "DANGEROUS",
         Command := "terraform state rm aws_vpc.b" }]) =
    sortResults (collectResults
      [{ TerraformAddress := "aws_vpc.b", Category := "DANGEROUS",
         Command := "terraform state rm aws_vpc.b" },
       { TerraformAddress := "aws_vpc.a", Category := "OK" }]) :=
  C5_aggregation_determinism _ _
    (List.Perm.swap _ _ [])
    (by decide)

/-! ## Claim C10 -/

theorem filter_three_disjoint_perm {α : Type} (p1 p2 p3 : α → Bool)
    (hdisj : ∀ a, (p1 a && p2 a) = false ∧ (p1 a && p3 a) = false ∧
      (p2 a && p3 a) = false) :
    ∀ l : List α, (l.filter p1 ++ l.filter p2 ++ l.filter p3).Perm
      (l.filter (fun a => p1 a || p2 a || p3 a)) := by
  intro l
  induction l with
  | nil => simp
  | cons a l ih =>
    obtain ⟨h12, h13, h23⟩ := hdisj a
    cases hp1 : p1 a with
    | true =>
      have hp2 : p2 a = false := by
        cases hp2 : p2 a
        · rfl
        · rw [hp1, hp2] at h12; exact absurd h12 (by simp)
      have hp3 : p3 a = false := by
        cases hp3 : p3 a
        · rfl
        · rw [hp1, hp3] at h13; exact absurd h13 (by simp)
      simp only [List.filter_cons, hp1, hp2, hp3, Bool.true_or]
      simp only [if_pos rfl, if_neg (by simp : ¬ false = true), List.cons_append]
      exact ih.cons a
    | false =>
      cases hp2 : p2 a with
      | true =>
        have hp3 : p3 a = false := by
          cases hp3 : p3 a
          · rfl
          · rw [hp2, hp3] at h23; exact absurd h23 (by simp)
        simp only [List.filter_cons, hp1, hp2, hp3, Bool.false_or, Bool.true_or]
        simp only [if_pos rfl, if_neg (by simp : ¬ false = true)]
        exact (List.Perm.append_right _ List.perm_middle).trans (ih.cons a)
      | false =>
        cases hp3 : p3 a with
        | true =>
          simp only [List.filter_cons, hp1, hp2, hp3, Bool.false_or]
          simp only [if_pos rfl, if_neg (by simp : ¬ false = true)]
          exact List.perm_middle.trans (ih.cons a)
        | false =>
          simp only [List.filter_cons, hp1, hp2, hp3, Bool.false_or]
          simp only [if_neg (by simp : ¬ false = true)]
          exact ih

theorem category_not_two (s : ResourceStatus) (c1 c2 : String) (hne : c1 ≠ c2) :
    ((s.Category == c1) && (s.Category == c2)) = false := by
  cases h1 : s.Category == c1
  · simp
  · cases h2 : s.Category == c2
    · simp
    · exact absurd ((eq_of_beq h1).symm.trans (eq_of_beq h2)) hne

theorem and_guard_disjoint (c a b : Bool) (h : (a && b) = false) :
    ((c && a) && (c && b)) = false := by
  cases c <;> cases a <;> cases b <;> simp_all

/-- The guard of `runCommandOf` as a predicate: a drift category with a
non-empty command. -/
def isDriftWithCommand (s : ResourceStatus) : Bool :=
  (s.Category == "POTENTIAL_IMPORT" || s.Category == "DANGEROUS" ||
    s.Category == "REGION_MISMATCH") && s.Command != ""

theorem filterMap_runCommandOf_eq (l : List ResourceStatus) :
    l.filterMap runCommandOf =
      (l.filter isDriftWithCommand).map ResourceStatus.Command := by
  induction l with
  | nil => rfl
  | cons s l ih =>
    rw [List.filterMap_cons, List.filter_cons]
    by_cases h : isDriftWithCommand s = true
    · rw [runCommandOf, if_pos (by exact h), if_pos h]
      simp [ih]
    · have hf : isDriftWithCommand s = false := by
        cases hp : isDriftWithCommand s; rfl; exact absurd hp h
      rw [runCommandOf, if_neg (by rw [isDriftWithCommand] at hf; simp [hf]), if_neg (by simp [hf])]
      exact ih

/-- C10: the aggregated `RunCommands` list is exactly (as a multiset) the
non-empty `Command` fields of the POTENTIAL_IMPORT, DANGEROUS and
REGION_MISMATCH buckets; INFO, OK, WARNING and ERROR results never
contribute a command. -/
theorem C10_run_commands_exactly (l : List ResourceStatus) :
    (collectResults l).RunCommands.Perm
      ((((collectResults l).PotentialImportResults ++
         (collectResults l).DangerousResults ++
         (collectResults l).RegionMismatchResults).filter
           (fun s => s.Command != "")).map ResourceStatus.Command) := by
  have hPI : (collectResults l).PotentialImportResults =
      l.filter (fun s => s.Category == "POTENTIAL_IMPORT") := by
    have h := collectResults_filter_aux l "POTENTIAL_IMPORT"
      categorizedResults.PotentialImportResults routeStatus_potentialImport {}
    simpa [collectResults] using h
  have hD : (collectResults l).DangerousResults =
      l.filter (fun s => s.Category == "DANGEROUS") := by
    have h := collectResults_filter_aux l "DANGEROUS"
      categorizedResults.DangerousResults routeStatus_dangerous {}
    simpa [collectResults] using h
  have hRM : (collectResults l).RegionMismatchResults =
      l.filter (fun s => s.Category == "REGION_MISMATCH") := by
    have h := collectResults_filter_aux l "REGION_MISMATCH"
      categorizedResults.RegionMismatchResults routeStatus_regionMismatch {}
    simpa [collectResults] using h
  rw [collectResults_runCommands, hPI, hD, hRM, filterMap_runCommandOf_eq,
    List.filter_append, List.filter_append, List.filter_filter,
    List.filter_filter, List.filter_filter]
  refine (List.Perm.map ResourceStatus.Command ?_).symm
  have hperm := filter_three_disjoint_perm
    (fun s : ResourceStatus => s.Command != "" && s.Category == "POTENTIAL_IMPORT")
    (fun s : ResourceStatus => s.Command != "" && s.Category == "DANGEROUS")
    (fun s : ResourceStatus => s.Command != "" && s.Category == "REGION_MISMATCH")
    (by
      intro s
      exact ⟨and_guard_disjoint _ _ _
          (category_not_two s "POTENTIAL_IMPORT" "DANGEROUS" (by decide)),
        and_guard_disjoint _ _ _
          (category_not_two s "POTENTIAL_IMPORT" "REGION_MISMATCH" (by decide)),
        and_guard_disjoint _ _ _
          (category_not_two s "DANGEROUS" "REGION_MISMATCH" (by decide))⟩)
    l
  refine hperm.trans ?_
  have hcongr : l.filter (fun s : ResourceStatus =>
      (s.Command != "" && s.Category == "POTENTIAL_IMPORT") ||
      (s.Command != "" && s.Category == "DANGEROUS") ||
      (s.Command != "" && s.Category == "REGION_MISMATCH")) =
      l.filter isDriftWithCommand := by
    refine List.filter_congr ?_
    intro s _
    rw [isDriftWithCommand]
    cases hq : (s.Command != "") <;>
      cases hc : (s.Category == "POTENTIAL_IMPORT") <;>
      cases hd : (s.Category == "DANGEROUS") <;>
      cases he : (s.Category == "REGION_MISMATCH") <;> rfl
  rw [hcongr]

/-! ## Claim C9 -/

/-- The sorted address list of a bucket depends only on the multiset of
its members (no address-uniqueness needed). -/
theorem sortByAddress_map_addr_eq {l1 l2 : List ResourceStatus} (h : l1.Perm l2) :
    (sortByAddress l1).map ResourceStatus.TerraformAddress =
    (sortByAddress l2).map ResourceStatus.TerraformAddress := by
  have hsorted : ∀ l : List ResourceStatus,
      List.Sorted (· ≤ ·)
        ((l.mergeSort leAddr).map ResourceStatus.TerraformAddress) := by
    intro l
    have hle := List.sorted_mergeSort leAddr_trans leAddr_total l
    refine List.pairwise_map.mpr (hle.imp ?_)
    intro a b hab
    simpa [leAddr] using hab
  have hp : ((l1.mergeSort leAddr).map ResourceStatus.TerraformAddress).Perm
      ((l2.mergeSort leAddr).map ResourceStatus.TerraformAddress) :=
    (((List.mergeSort_perm l1 leAddr).trans h).trans
      (List.mergeSort_perm l2 leAddr).symm).map _
  haveI : IsAntisymm String (· ≤ ·) := ⟨fun _ _ => le_antisymm⟩
  exact List.eq_of_perm_of_sorted hp (hsorted l1) (hsorted l2)

/-- The per-category sorted address lists of an aggregated result. -/
def bucketAddressView (r : categorizedResults) : List (List String) :=
  [r.InfoResults.map ResourceStatus.TerraformAddress,
   r.OkResults.map ResourceStatus.TerraformAddress,
   r.WarningResults.map ResourceStatus.TerraformAddress,
   r.ErrorResults.map ResourceStatus.TerraformAddress,
   r.PotentialImportResults.map ResourceStatus.TerraformAddress,
   r.DangerousResults.map ResourceStatus.TerraformAddress,
   r.RegionMismatchResults.map ResourceStatus.TerraformAddress]

/-- The per-category counts of an aggregated result. -/
def bucketCounts (r : categorizedResults) : List Nat :=
  [r.InfoResults.length, r.OkResults.length, r.WarningResults.length,
   r.ErrorResults.length, r.PotentialImportResults.length,
   r.DangerousResults.length, r.RegionMismatchResults.length]

/-- The true half of C9: the statuses produced by the workers do not
mention the concurrency limit at all (it only sizes the results channel,
`resultsChanCapacity`), so for any two arrival orders of the same run —
in particular the orders induced by any two positive concurrency values —
the per-category counts, the sorted per-category address lists and the
sorted command list coincide. -/
theorem final_output_concurrency_independent (oracle : Oracle)
    (tfState : TFStateFile) (region : String)
    (arrival1 arrival2 : List ResourceStatus)
    (h1 : arrival1.Perm (statusesOf oracle tfState region))
    (h2 : arrival2.Perm (statusesOf oracle tfState region)) :
    bucketAddressView (sortResults (collectResults arrival1)) =
      bucketAddressView (sortResults (collectResults arrival2)) ∧
    bucketCounts (sortResults (collectResults arrival1)) =
      bucketCounts (sortResults (collectResults arrival2)) ∧
    (sortResults (collectResults arrival1)).RunCommands =
      (sortResults (collectResults arrival2)).RunCommands := by
  have hp : arrival1.Perm arrival2 := h1.trans h2.symm
  have hbucket : ∀ (cat : String)
      (proj : categorizedResults → List ResourceStatus)
      (hstep : ∀ acc s, proj (routeStatus acc s) =
        proj acc ++ (if s.Category == cat then [s] else []))
      (hempty : proj ({} : categorizedResults) = []),
      proj (collectResults arrival1) = arrival1.filter (fun s => s.Category == cat) ∧
      proj (collectResults arrival2) = arrival2.filter (fun s => s.Category == cat) := by
    intro cat proj hstep hempty
    constructor
    · have h := collectResults_filter_aux arrival1 cat proj hstep {}
      rw [hempty] at h
      simpa [collectResults] using h
    · have h := collectResults_filter_aux arrival2 cat proj hstep {}
      rw [hempty] at h
      simpa [collectResults] using h
  have hInfo := hbucket "INFO" categorizedResults.InfoResults routeStatus_info rfl
  have hOk := hbucket "OK" categorizedResults.OkResults routeStatus_ok rfl
  have hWarn := hbucket "WARNING" categorizedResults.WarningResults routeStatus_warning rfl
  have hErr := hbucket "ERROR" categorizedResults.ErrorResults routeStatus_error rfl
  have hPI := hbucket "POTENTIAL_IMPORT" categorizedResults.PotentialImportResults
    routeStatus_potentialImport rfl
  have hDg := hbucket "DANGEROUS" categorizedResults.DangerousResults
    routeStatus_dangerous rfl
  have hRM := hbucket "REGION_MISMATCH" categorizedResults.RegionMismatchResults
    routeStatus_regionMismatch rfl
  refine ⟨?_, ?_, ?_⟩
  · simp only [bucketAddressView, sortResults, List.cons.injEq, and_true]
    exact ⟨sortByAddress_map_addr_eq (by rw [hInfo.1, hInfo.2]; exact hp.filter _),
      sortByAddress_map_addr_eq (by rw [hOk.1, hOk.2]; exact hp.filter _),
      sortByAddress_map_addr_eq (by rw [hWarn.1, hWarn.2]; exact hp.filter _),
      sortByAddress_map_addr_eq (by rw [hErr.1, hErr.2]; exact hp.filter _),
      sortByAddress_map_addr_eq (by rw [hPI.1, hPI.2]; exact hp.filter _),
      sortByAddress_map_addr_eq (by rw [hDg.1, hDg.2]; exact hp.filter _),
      sortByAddress_map_addr_eq (by rw [hRM.1, hRM.2]; exact hp.filter _)⟩
  · have hlen : ∀ {l1 l2 : List ResourceStatus}, l1.Perm l2 →
        (sortByAddress l1).length = (sortByAddress l2).length := by
      intro l1 l2 h
      exact (((List.mergeSort_perm l1 leAddr).trans h).trans
        (List.mergeSort_perm l2 leAddr).symm).length_eq
    simp only [bucketCounts, sortResults, List.cons.injEq, and_true]
    exact ⟨hlen (by rw [hInfo.1, hInfo.2]; exact hp.filter _),
      hlen (by rw [hOk.1, hOk.2]; exact hp.filter _),
      hlen (by rw [hWarn.1, hWarn.2]; exact hp.filter _),
      hlen (by rw [hErr.1, hErr.2]; exact hp.filter _),
      hlen (by rw [hPI.1, hPI.2]; exact hp.filter _),
      hlen (by rw [hDg.1, hDg.2]; exact hp.filter _),
      hlen (by rw [hRM.1, hRM.2]; exact hp.filter _)⟩
  · simp only [sortResults]
    rw [collectResults_runCommands, collectResults_runCommands]
    exact sortStringsGo_perm_eq (hp.filterMap runCommandOf)

/-- C9, the failing half evaluated at a concrete input: a snapshot with
three declared instances under concurrency 1 — the dispatch loop executes
three `go` statements (one per instance); the configured limit only sizes
the results channel, so there is no worker pool of size 1. -/
theorem C9_goroutine_per_instance_eval :
    goStatementCount
      { Version := 4,
        Resources :=
          [{ Type' := "aws_vpc", Name := "a", Instances := [{}, {}] },
           { Type' := "aws_subnet", Name := "b", Instances := [{}] }] } = 3 ∧
    resultsChanCapacity 1 = 1 ∧
    goStatementCount
      { Version := 4,
        Resources :=
          [{ Type' := "aws_vpc", Name := "a", Instances := [{}, {}] },
           { Type' := "aws_subnet", Name := "b", Instances := [{}] }] } ≠
      resultsChanCapacity 1 :=
  ⟨rfl, rfl, by decide⟩

/-! ## Claim C6 -/

theorem uploadState_not_mem_core (env : PostEnv) (config : Config)
    (lsp obf ts nh : String) (lp b k : String) :
    Action.uploadState lp b k ∉ postReconCoreTrace env config lsp obf ts nh := by
  intro hmem
  unfold postReconCoreTrace at hmem
  rcases env with ⟨cn, mr, mw, mh, sl, cp, jr, jrep, jw, jh, sj, m3, j3, fu, ym⟩
  dsimp only at hmem
  cases mh <;> cases jh <;> cases mw <;> cases sl <;> cases cp <;> cases jr <;>
    cases jw <;> by_cases hn : nh = "" <;>
    simp_all [List.mem_append]

theorem uploadState_not_mem_s3tail (env : PostEnv) (config : Config)
    (obf ts ym oh nh : String) (lp b k : String) :
    Action.uploadState lp b k ∉ postReconS3Tail env config obf ts ym oh nh := by
  intro hmem
  unfold postReconS3Tail at hmem
  by_cases ho : oh = "" <;>
    by_cases hnp : newLocalStatePathOf env config obf ts = "" <;>
    cases h3 : env.mdHashCalcS3 <;>
    cases h4 : env.jsonHashCalcS3 <;>
    cases h5 : env.statJsonOk <;>
    by_cases hn : nh = "" <;>
    simp_all [List.mem_append]

/-- C6: the publish of the updated snapshot — the final upload of the
working state file back to its original S3 location performed by
`handlePostReconciliationBackupsAndUpload` — happens iff the state is
S3-backed and `contentChanged` holds; and `contentChanged` holds exactly
when both the original and the recomputed post-run hash were computed
(a failed computation is the empty string) and the two differ.  In
particular the publish never happens when the hashes agree or when either
computation failed. -/
theorem C6_publish_gated_on_content_change (env : PostEnv) (config : Config)
    (localStateFilePath originalBaseFileName timestamp yearMonth : String)
    (stateFileModified : Bool) (originalStateFileHash : String) :
    ((Action.uploadState localStateFilePath config.S3Bucket config.S3Key ∈
        (handlePostReconciliationBackupsAndUpload env config localStateFilePath
          originalBaseFileName timestamp yearMonth stateFileModified
          originalStateFileHash).1) ↔
      (config.IsS3State = true ∧
       contentChangedOf originalStateFileHash ((env.calcNewHash).getD "") = true)) ∧
    (contentChangedOf originalStateFileHash ((env.calcNewHash).getD "") = true ↔
      (originalStateFileHash ≠ "" ∧ (env.calcNewHash).getD "" ≠ "" ∧
       (env.calcNewHash).getD "" ≠ originalStateFileHash)) := by
  constructor
  · unfold handlePostReconciliationBackupsAndUpload
    by_cases hcond : (config.IsS3State &&
        contentChangedOf originalStateFileHash ((env.calcNewHash).getD "")) = true
    · rw [if_pos hcond]
      constructor
      · intro _
        exact Bool.and_eq_true _ _ |>.mp hcond
      · intro _
        simp [List.mem_append]
    · rw [if_neg hcond]
      constructor
      · intro hmem
        exact absurd hmem (uploadState_not_mem_core env config localStateFilePath
          originalBaseFileName timestamp ((env.calcNewHash).getD "") _ _ _)
      · intro ⟨h1, h2⟩
        exact absurd (by rw [h1, h2]; rfl) hcond
  · unfold contentChangedOf
    constructor
    · intro h
      simp only [Bool.and_eq_true, bne_iff_ne, ne_eq] at h
      exact ⟨h.1.1, h.1.2, h.2⟩
    · intro ⟨h1, h2, h3⟩
      simp only [Bool.and_eq_true, bne_iff_ne, ne_eq]
      exact ⟨⟨h1, h2⟩, h3⟩

/-! ## Claim C7 -/

/-- The effect trace of the post-reconciliation phase. -/
def postTraceOf (env : PostEnv) (config : Config)
    (localStateFilePath originalBaseFileName timestamp yearMonth : String)
    (stateFileModified : Bool) (originalStateFileHash : String) : List Action :=
  (handlePostReconciliationBackupsAndUpload env config localStateFilePath
    originalBaseFileName timestamp yearMonth stateFileModified
    originalStateFileHash).1

theorem mem_post_of_mem_core (env : PostEnv) (config : Config)
    (lsp obf ts ym : String) (sfm : Bool) (oh : String) {a : Action}
    (ha : a ∈ postReconCoreTrace env config lsp obf ts ((env.calcNewHash).getD "")) :
    a ∈ postTraceOf env config lsp obf ts ym sfm oh := by
  unfold postTraceOf handlePostReconciliationBackupsAndUpload
  dsimp only
  split
  · simp only [List.mem_append]
    exact Or.inl (Or.inl ha)
  · exact ha

/-- C7: both report artifacts are always written (the Markdown one
unconditionally, the JSON one whenever its rendering — a plain
`json.MarshalIndent` — succeeds), regardless of whether the content
changed; and every successfully written artifact whose hash was computed
gets a same-named `.sha256` sibling holding that hash: the Markdown
report, the JSON report, the `new` state backup, and the original backup
made by `setupStateFileForProcessing`. -/
theorem C7_reports_always_and_hash_companions (env : PostEnv) (senv : SetupEnv)
    (config : Config)
    (localStateFilePath originalBaseFileName timestamp yearMonth : String)
    (stateFileModified : Bool) (originalStateFileHash : String) :
    (Action.writeFile
        (createBackupPath env.yearMonth config.BackupsDir originalBaseFileName
          "report" timestamp ".md") env.mdReport ∈
      postTraceOf env config localStateFilePath originalBaseFileName timestamp
        yearMonth stateFileModified originalStateFileHash) ∧
    (env.jsonRenderOk = true →
      Action.writeFile
        (createBackupPath env.yearMonth config.BackupsDir originalBaseFileName
          "report" timestamp ".json") env.jsonReport ∈
      postTraceOf env config localStateFilePath originalBaseFileName timestamp
        yearMonth stateFileModified originalStateFileHash) ∧
    (env.mdWriteOk = true → ∀ h, env.mdHashCalc = some h →
      Action.writeFile
        (createBackupPath env.yearMonth config.BackupsDir originalBaseFileName
          "report" timestamp ".md" ++ ".sha256") h ∈
      postTraceOf env config localStateFilePath originalBaseFileName timestamp
        yearMonth stateFileModified originalStateFileHash) ∧
    (env.jsonRenderOk = true → env.jsonWriteOk = true →
      ∀ h, env.jsonHashCalc = some h →
      Action.writeFile
        (createBackupPath env.yearMonth config.BackupsDir originalBaseFileName
          "report" timestamp ".json" ++ ".sha256") h ∈
      postTraceOf env config localStateFilePath originalBaseFileName timestamp
        yearMonth stateFileModified originalStateFileHash) ∧
    (env.statLocalOk = true → env.copyNewOk = true →
      ∀ h, env.calcNewHash = some h → h ≠ "" →
      Action.writeFile
        (createBackupPath env.yearMonth config.BackupsDir originalBaseFileName
          "new" timestamp ".tfstate" ++ ".sha256") h ∈
      postTraceOf env config localStateFilePath originalBaseFileName timestamp
        yearMonth stateFileModified originalStateFileHash) ∧
    (senv.copyOriginalOk = true → ∀ h, senv.originalHashCalc = some h →
      (config.IsS3State = false ∨ senv.downloadOk = true) →
      Action.writeFile
        (createBackupPath senv.yearMonth config.BackupsDir originalBaseFileName
          "original" timestamp ".tfstate" ++ ".sha256") h ∈
      (setupStateFileForProcessing senv config originalBaseFileName timestamp).1) := by
  refine ⟨?_, ?_, ?_, ?_, ?_, ?_⟩
  · exact mem_post_of_mem_core env config _ _ _ _ _ _
      (by simp [postReconCoreTrace, List.mem_append])
  · intro hjr
    exact mem_post_of_mem_core env config _ _ _ _ _ _
      (by simp [postReconCoreTrace, List.mem_append, hjr])
  · intro hmw h hmh
    exact mem_post_of_mem_core env config _ _ _ _ _ _
      (by simp [postReconCoreTrace, List.mem_append, hmw, hmh])
  · intro hjr hjw h hjh
    exact mem_post_of_mem_core env config _ _ _ _ _ _
      (by simp [postReconCoreTrace, List.mem_append, hjr, hjw, hjh])
  · intro hsl hcp h hch hne
    exact mem_post_of_mem_core env config _ _ _ _ _ _
      (by simp [postReconCoreTrace, List.mem_append, hsl, hcp, hch, hne])
  · intro hcp h hh hdl
    cases his : config.IsS3State with
    | false => simp [setupStateFileForProcessing, his, hcp, hh, List.mem_append]
    | true =>
      have hdk : senv.downloadOk = true := by
        rcases hdl with h' | h'
        · rw [his] at h'; exact absurd h' (by simp)
        · exact h'
      simp [setupStateFileForProcessing, his, hdk, hcp, hh, List.mem_append]

/-- Concrete post-phase environment: every effect succeeds and every hash
is computed. -/
def postEnvW : PostEnv :=
  { calcNewHash := some "new-hash", mdReport := "md-report",
    mdHashCalc := some "md-hash", jsonReport := "json-report",
    jsonHashCalc := some "json-hash" }

/-- Concrete setup environment: the original backup copy and hash
succeed. -/
def setupEnvW : SetupEnv := { originalHashCalc := some "orig-hash" }

/-- Concrete local-state configuration. -/
def cfgW : Config := { StateFilePath := "dev.tfstate", BackupsDir := "backups" }

/-- A concrete unchanged run (hashes equal, so no publish) still writes
both reports and all four `.sha256` companions. -/
theorem C7_reports_always_and_hash_companions_witness :
    (Action.writeFile
        (createBackupPath postEnvW.yearMonth cfgW.BackupsDir "dev.tfstate"
          "report" "01-01-01-01" ".md") postEnvW.mdReport ∈
      postTraceOf postEnvW cfgW "dev.tfstate" "dev.tfstate" "01-01-01-01"
        "2025/10" false "new-hash") ∧
    (Action.writeFile
        (createBackupPath postEnvW.yearMonth cfgW.BackupsDir "dev.tfstate"
          "report" "01-01-01-01" ".json") postEnvW.jsonReport ∈
      postTraceOf postEnvW cfgW "dev.tfstate" "dev.tfstate" "01-01-01-01"
        "2025/10" false "new-hash") ∧
    (Action.writeFile
        (createBackupPath postEnvW.yearMonth cfgW.BackupsDir "dev.tfstate"
          "report" "01-01-01-01" ".md" ++ ".sha256") "md-hash" ∈
      postTraceOf postEnvW cfgW "dev.tfstate" "dev.tfstate" "01-01-01-01"
        "2025/10" false "new-hash") ∧
    (Action.writeFile
        (createBackupPath postEnvW.yearMonth cfgW.BackupsDir "dev.tfstate"
          "report" "01-01-01-01" ".json" ++ ".sha256") "json-hash" ∈
      postTraceOf postEnvW cfgW "dev.tfstate" "dev.tfstate" "01-01-01-01"
        "2025/10" false "new-hash") ∧
    (Action.writeFile
        (createBackupPath postEnvW.yearMonth cfgW.BackupsDir "dev.tfstate"
          "new" "01-01-01-01" ".tfstate" ++ ".sha256") "new-hash" ∈
      postTraceOf postEnvW cfgW "dev.tfstate" "dev.tfstate" "01-01-01-01"
        "2025/10" false "new-hash") ∧
    (Action.writeFile
        (createBackupPath setupEnvW.yearMonth cfgW.BackupsDir "dev.tfstate"
          "original" "01-01-01-01" ".tfstate" ++ ".sha256") "orig-hash" ∈
      (setupStateFileForProcessing setupEnvW cfgW "dev.tfstate" "01-01-01-01").1) := by
  have h := C7_reports_always_and_hash_companions postEnvW setupEnvW cfgW
    "dev.tfstate" "dev.tfstate" "01-01-01-01" "2025/10" false "new-hash"
  exact ⟨h.1, h.2.1 rfl, h.2.2.1 rfl "md-hash" rfl, h.2.2.2.1 rfl rfl "json-hash" rfl,
    h.2.2.2.2.1 rfl rfl "new-hash" rfl (by decide),
    h.2.2.2.2.2 rfl "orig-hash" rfl (Or.inl rfl)⟩

/-! ## Claim C8 -/

theorem verify_not_mem_setup (senv : SetupEnv) (config : Config) (obf ts : String)
    (c : VerifyCall) :
    Action.verify c ∉ (setupStateFileForProcessing senv config obf ts).1 := by
  intro hmem
  unfold setupStateFileForProcessing at hmem
  rcases senv with ⟨tp, dl, cp, ohc, ym⟩
  cases his : config.IsS3State <;> cases dl <;> cases cp <;> cases ohc <;>
    simp_all [List.mem_append]

theorem writeFile_mem_setup_eq (senv : SetupEnv) (config : Config) (obf ts : String)
    (p c : String)
    (hmem : Action.writeFile p c ∈ (setupStateFileForProcessing senv config obf ts).1) :
    p = createBackupPath senv.yearMonth config.BackupsDir obf "original" ts
          ".tfstate" ++ ".sha256" := by
  unfold setupStateFileForProcessing at hmem
  rcases senv with ⟨tp, dl, cp, ohc, ym⟩
  cases his : config.IsS3State <;> cases dl <;> cases cp <;> cases ohc <;>
    simp_all [List.mem_append]

/-- C8 (amended): a decode failure (e.g. an unsupported format version)
makes `openAndReadStateFile` abort the run right after the setup phase:
the run fails, its effect trace is exactly the setup trace — so no
Inventory Provider call is ever made and the only file written is the
`.sha256` companion of the original backup; the original backup itself
(and, for an S3 state, the download) has however already happened before
decoding. -/
theorem C8_decode_failure_aborts_after_setup (env : RunEnv) (J : JsonModel)
    (oracle : Oracle) (config : Config) (obf ts ym : String)
    (haws : env.awsInitOk = true) (hmk : env.mkdirBackupsOk = true)
    (hsetup : (setupStateFileForProcessing env.setup config obf ts).2.2.2 = none)
    (e : ReadError) (hdec : Read J env.stateContent = .error e) :
    runApplication env J oracle config obf ts ym =
      ((setupStateFileForProcessing env.setup config obf ts).1, false) ∧
    (∀ c : VerifyCall,
      Action.verify c ∉ (runApplication env J oracle config obf ts ym).1) ∧
    (∀ p c, Action.writeFile p c ∈ (runApplication env J oracle config obf ts ym).1 →
      p = createBackupPath env.setup.yearMonth config.BackupsDir obf "original" ts
            ".tfstate" ++ ".sha256") := by
  have hrun : runApplication env J oracle config obf ts ym =
      ((setupStateFileForProcessing env.setup config obf ts).1, false) := by
    unfold runApplication
    rw [if_neg (by simp [haws]), if_neg (by simp [hmk])]
    rcases hs : setupStateFileForProcessing env.setup config obf ts with ⟨t, l, h, er⟩
    rw [hs] at hsetup
    dsimp only at hsetup
    subst hsetup
    dsimp only
    rw [hdec]
  refine ⟨hrun, ?_, ?_⟩
  · intro c
    rw [hrun]
    exact verify_not_mem_setup _ _ _ _ c
  · intro p c hmem
    rw [hrun] at hmem
    exact writeFile_mem_setup_eq _ _ _ _ p c hmem

/-- Concrete environment for a version-99 run over a local state file. -/
def runEnvC8 : RunEnv :=
  { setup := { originalHashCalc := some "h0" }, stateContent := doc99 }

/-- Concrete local-state configuration for the version-99 run. -/
def cfgC8 : Config :=
  { StateFilePath := "terraform.tfstate", AWSRegion := "us-west-2",
    BackupsDir := "backups" }

/-- The version-99 run aborts right after setup with the setup trace as
its whole effect trace. -/
theorem C8_decode_failure_aborts_after_setup_witness :
    runApplication runEnvC8 J99 (fun _ => {}) cfgC8 "terraform.tfstate"
        "02-15-04-05" "2025/10" =
      ((setupStateFileForProcessing runEnvC8.setup cfgC8 "terraform.tfstate"
        "02-15-04-05").1, false) :=
  (C8_decode_failure_aborts_after_setup runEnvC8 J99 (fun _ => {}) cfgC8
    "terraform.tfstate" "02-15-04-05" "2025/10" rfl rfl rfl
    (ReadError.unsupportedVersion 99 "") rfl).1

/-- C8 as stated is false: the version-99 run aborts, but artifacts have
already been written — the original backup copy and its `.sha256` hash
file are in the run's effect trace. -/
theorem C8_counterexample :
    (runApplication runEnvC8 J99 (fun _ => {}) cfgC8 "terraform.tfstate"
        "02-15-04-05" "2025/10").2 = false ∧
    Action.copyFile "terraform.tfstate"
        "backups/2025/10/02-15-04-05/original.terraform.tfstate" ∈
      (runApplication runEnvC8 J99 (fun _ => {}) cfgC8 "terraform.tfstate"
        "02-15-04-05" "2025/10").1 ∧
    Action.writeFile
        "backups/2025/10/02-15-04-05/original.terraform.tfstate.sha256" "h0" ∈
      (runApplication runEnvC8 J99 (fun _ => {}) cfgC8 "terraform.tfstate"
        "02-15-04-05" "2025/10").1 := by
  refine ⟨?_, ?_, ?_⟩ <;> decide

end RTF
